import Mathlib

/-!
# GodComplex: Voronoi particle-identity bake, probe light-bounce accumulator,
# particle buffer scrolling

A shallow embedding of

* `src/Intro/Effects/EffectParticles.cpp`: `CombineDistances`, `FillVoronoi`,
  `PerturbVoronoi`, `EffectParticles::BuildVoronoiTexture` (its head and the loop that
  stores the cell centres), the constructor (the loop that builds the initial positions
  and the creation of the render targets) and the buffer bookkeeping of
  `EffectParticles::Render`;
* `src/Intro/Effects/EffectGlobalIllum2.h`: `ProbeStruct` with `ClearLightBounce` and
  `AccumulateLightBounce`.

Conventions of the embedding:

* `float` values are rationals (`ℚ`), and the literals `0.2f`, `0.4f`, `0.04f`, `0.025f`
  are the decimal fractions they denote. Where a `float` result decides an integer it is
  rounded as the machine rounds it, by `binary32` (IEEE 754 single precision, round to
  nearest, ties to even): the conversion `float( n )` of an `int` (`intToFloat`) and the
  product of lines 311-312 that `floorf` and `int( )` turn into a texel coordinate.
  Elsewhere (the UV coordinates of a rectangle, the positions of the particles, the SH
  sums) the arithmetic is exact; infinities and NaN are outside the model;
* `int` values are integers (`ℤ`), every run-time arithmetic result being wrapped to 32 bits
  by `int32`; the constant expression `EFFECT_PARTICLES_COUNT*EFFECT_PARTICLES_COUNT`, which
  the sources also use as an array size, is the plain product; the `%` operator of C++ is
  `Int.tmod` (the remainder takes the sign of the dividend);
* C arrays reached through a pointer are functions from the index (`ℕ → α`), a write being
  `Function.update`; arrays of fixed size `k` inside a structure are `Fin k → α`;
* a failed `ASSERT` is the result `none`;
* constants and classes that the sources use without defining them
  (`EFFECT_PARTICLES_COUNT`, `MAX_FLOAT`, `TWOPI`, `sqrtf`, `cosf`, `sinf`, the class
  `Noise`, the allocator behind `new`) are parameters.
-/

namespace GodComplex

/-! ## Machine integers and conversions -/

/-- Wrap an integer to the range of a 32-bit two's-complement `int`. -/
def int32 (x : ℤ) : ℤ := (x + 2 ^ 31) % 2 ^ 32 - 2 ^ 31

/-- The library function `floorf`: the largest integral value not above `x`. -/
def floorf (x : ℚ) : ℚ := ((⌊x⌋ : ℤ) : ℚ)

/-- The conversion `int( x )` of a `float`: truncation toward zero, wrapped to 32 bits. -/
def floatToInt (x : ℚ) : ℤ := int32 (if 0 ≤ x then ⌊x⌋ else ⌈x⌉)

/-- Rounding of a rational to the nearest integer, a tie going to the even one. -/
def roundHalfEven (q : ℚ) : ℤ :=
  if q - (⌊q⌋ : ℤ) < 1 / 2 then ⌊q⌋
  else if q - (⌊q⌋ : ℤ) > 1 / 2 then ⌊q⌋ + 1
  else if ⌊q⌋ % 2 = 0 then ⌊q⌋ else ⌊q⌋ + 1

/-- The spacing of the `float` values (IEEE 754 binary32: 24 significant bits, least
normal exponent -126) around `x`: `2 ^ (e - 23)` for `2 ^ e <= |x| < 2 ^ (e + 1)`, and
`2 ^ (-149)` below `2 ^ (-126)`. -/
def ulp32 (x : ℚ) : ℚ := (2 : ℚ) ^ (max (Int.log 2 |x|) (-126) - 23)

/-- Rounding of a real result to `float`: the nearest multiple of `ulp32 x`, a tie going
to the even one (magnitudes of `2 ^ 128` and more, which overflow, are outside the
model). -/
def binary32 (x : ℚ) : ℚ := (roundHalfEven (x / ulp32 x) : ℚ) * ulp32 x

/-- The conversion `float( n )` of an `int`: the nearest `float`, exact up to `2 ^ 24`. -/
def intToFloat (n : ℤ) : ℚ := binary32 (n : ℚ)

/-- Modelled from the spec: the macro `MIN` (used by `PerturbVoronoi`, defined outside the
sources); the spec describes the extent update as a min/max. -/
def MIN (a b : ℚ) : ℚ := if a < b then a else b

/-- Modelled from the spec: the macro `MAX` (used by `PerturbVoronoi`, defined outside the
sources); the spec describes the extent update as a min/max. -/
def MAX (a b : ℚ) : ℚ := if a > b then a else b

/-! ## Vectors and pixels -/

/-- The 2-vector `NjFloat2`. -/
structure NjFloat2 where
  x : ℚ
  y : ℚ
deriving DecidableEq

/-- The 3-vector `NjFloat3`. -/
structure NjFloat3 where
  x : ℚ
  y : ℚ
  z : ℚ
deriving DecidableEq

/-- The 4-vector `NjFloat4`. -/
structure NjFloat4 where
  x : ℚ
  y : ℚ
  z : ℚ
  w : ℚ
deriving DecidableEq

/-- The sum `a + b` of two `NjFloat2`. -/
def NjFloat2.add (a b : NjFloat2) : NjFloat2 := ⟨a.x + b.x, a.y + b.y⟩

/-- The product `s * a` of a `float` and an `NjFloat2`. -/
def NjFloat2.smul (s : ℚ) (a : NjFloat2) : NjFloat2 := ⟨s * a.x, s * a.y⟩

/-- The sum `a + b` of two `NjFloat3`. -/
def NjFloat3.add (a b : NjFloat3) : NjFloat3 := ⟨a.x + b.x, a.y + b.y, a.z + b.z⟩

/-- The component-wise product `a * b` of two `NjFloat3`. -/
def NjFloat3.mul (a b : NjFloat3) : NjFloat3 := ⟨a.x * b.x, a.y * b.y, a.z * b.z⟩

/-- The method `NjFloat4::Set`. -/
def NjFloat4.Set (_ : NjFloat4) (x y z w : ℚ) : NjFloat4 := ⟨x, y, z, w⟩

/-- The generic pixel of `TextureBuilder`; the bake only touches its `RGBA` field. -/
structure Pixel where
  RGBA : NjFloat4
deriving DecidableEq

/-- The vertex format `VertexFormatPt4`: one 4-vector `Pt`, here the UV rectangle
(min-u, min-v, max-u, max-v) of a particle. -/
structure VertexFormatPt4 where
  Pt : NjFloat4
deriving DecidableEq

/-! ## Collaborators declared outside the sources -/

/-- What `Noise::Cellular` hands to its combiner: the arrays `_pDistances`, `_pCellX`,
`_pCellY`, `_pCellZ`. -/
structure CellularHit where
  _pDistances : ℕ → ℚ
  _pCellX : ℕ → ℤ
  _pCellY : ℕ → ℤ
  _pCellZ : ℕ → ℤ

/-- The class `Noise`, reduced to the two queries the bake makes: `PerlinVector` and the
search run by `Cellular` (position and wrap flag to the hit given to the combiner). -/
structure Noise where
  PerlinVector : NjFloat2 → NjFloat2
  cellularSearch : NjFloat2 → Bool → CellularHit

/-- The class `TextureBuilder`: its size and its generic buffer, per mip level and texel. -/
structure TextureBuilder where
  m_Width : ℤ
  m_Height : ℤ
  m_ppBufferGeneric : ℕ → ℤ → ℤ → Pixel

/-- The accessor `TextureBuilder::GetWidth`. -/
def TextureBuilder.GetWidth (tb : TextureBuilder) : ℤ := tb.m_Width

/-- The accessor `TextureBuilder::GetHeight`. -/
def TextureBuilder.GetHeight (tb : TextureBuilder) : ℤ := tb.m_Height

/-- Modelled from the spec: `TextureBuilder::Get` (declared in `TextureBuilder.h`, its body
is not in the sources): the texel `(_X, _Y)` of mip level `_MipLevel`, uninterpolated. -/
def TextureBuilder.Get (tb : TextureBuilder) (_X _Y : ℤ) (_MipLevel : ℕ) : Pixel :=
  tb.m_ppBufferGeneric _MipLevel _X _Y

/-- Modelled from the spec: `TextureBuilder::Fill` (declared in `TextureBuilder.h`, its body
is not in the sources) for a delegate that keeps no state: every texel of the
width x height grid of mip 0 becomes what the delegate writes for that pixel; `pixelUV`
is the UV the builder passes for a pixel. -/
def TextureBuilder.Fill (tb : TextureBuilder) (pixelUV : ℤ → ℤ → NjFloat2)
    (_Filler : ℤ → ℤ → NjFloat2 → Pixel → Pixel) : TextureBuilder :=
  { tb with
    m_ppBufferGeneric := fun mip X Y =>
      if mip = 0 ∧ 0 ≤ X ∧ X < tb.m_Width ∧ 0 ≤ Y ∧ Y < tb.m_Height then
        _Filler X Y (pixelUV X Y) (tb.m_ppBufferGeneric 0 X Y)
      else tb.m_ppBufferGeneric mip X Y }

/-- Modelled from the spec: `Noise::Cellular` (the class `Noise` is not in the sources):
the search finds the nearest seed and calls the combiner once on it; the value is what
the combiner returns and the data it wrote. -/
def Noise.Cellular {α : Type} (N : Noise) (_Position : NjFloat2)
    (_Combine : (ℕ → ℚ) → (ℕ → ℤ) → (ℕ → ℤ) → (ℕ → ℤ) → ℚ × α) (_bWrap : Bool) : ℚ × α :=
  let hit := N.cellularSearch _Position _bWrap
  _Combine hit._pDistances hit._pCellX hit._pCellY hit._pCellZ

/-! ## The drawers and fillers of `EffectParticles.cpp` -/

/-- The structure `__VoronoiInfos`. -/
structure __VoronoiInfos where
  ParticleIndex : ℤ
  Distance : ℚ

/-- The structure `__PerturbVoronoi`. -/
structure __PerturbVoronoi where
  pNoise : Noise
  pVoronoi : TextureBuilder
  W : ℤ
  H : ℤ
  pVertices : ℕ → VertexFormatPt4

/-- The combiner `CombineDistances` (lines 285-291): the infos it writes and the `0.0f` it
returns. -/
def CombineDistances (EFFECT_PARTICLES_COUNT : ℤ) (sqrtf : ℚ → ℚ)
    (_pDistances : ℕ → ℚ) (_pCellX _pCellY _pCellZ : ℕ → ℤ) : ℚ × __VoronoiInfos :=
  let _ := _pCellZ
  (0, { ParticleIndex := int32 (int32 (EFFECT_PARTICLES_COUNT * _pCellY 0) + _pCellX 0)
        Distance := sqrtf (_pDistances 0) })

/-- The filler `FillVoronoi` (lines 292-300). -/
def FillVoronoi (EFFECT_PARTICLES_COUNT : ℤ) (sqrtf : ℚ → ℚ) (N : Noise)
    (x y : ℤ) (_UV : NjFloat2) (_Pixel : Pixel) : Pixel :=
  let _ := (x, y)
  let Infos := (N.Cellular (NjFloat2.smul (intToFloat EFFECT_PARTICLES_COUNT) _UV)
    (CombineDistances EFFECT_PARTICLES_COUNT sqrtf) true).2
  { _Pixel with RGBA := _Pixel.RGBA.Set (intToFloat Infos.ParticleIndex) Infos.Distance 0 0 }

/-- Lines 305-307 of `PerturbVoronoi`: the UV at which the raw partition is sampled. -/
def PerturbVoronoi.NewUV (pNoise : Noise) (_UV : NjFloat2) : NjFloat2 :=
  let Disturb := pNoise.PerlinVector (NjFloat2.smul (25 / 1000) _UV)
  NjFloat2.add _UV (NjFloat2.smul (0 * (4 / 100)) Disturb)

/-- Lines 311-312 of `PerturbVoronoi`: a texel coordinate
`(W + int(floorf( u * W ))) % W`, the product `u * W` being the `float` product of `u` and
of `W` converted to `float`. -/
def PerturbVoronoi.texel (W : ℤ) (u : ℚ) : ℤ :=
  Int.tmod (int32 (W + floatToInt (floorf (binary32 (u * intToFloat W))))) W

/-- Lines 326-338 of `PerturbVoronoi`: the sample after the two seam tests, each against
the rectangle `ParticleVertex` as it stands before the update. -/
def PerturbVoronoi.unwrap (ParticleVertex : NjFloat4) (NewUV : NjFloat2) : NjFloat2 :=
  let DeltaU := NewUV.x - ParticleVertex.x
  let DeltaV := NewUV.y - ParticleVertex.y
  let NewUV : NjFloat2 := if DeltaU > 2 / 10 then { NewUV with x := NewUV.x - 1 } else NewUV
  let NewUV : NjFloat2 := if DeltaV > 2 / 10 then { NewUV with y := NewUV.y - 1 } else NewUV
  let DeltaU := ParticleVertex.z - NewUV.x
  let DeltaV := ParticleVertex.w - NewUV.y
  let NewUV : NjFloat2 := if DeltaU > 2 / 10 then { NewUV with x := NewUV.x + 1 } else NewUV
  let NewUV : NjFloat2 := if DeltaV > 2 / 10 then { NewUV with y := NewUV.y + 1 } else NewUV
  NewUV

/-- Lines 340-343 of `PerturbVoronoi`: the four assignments that grow the rectangle. -/
def PerturbVoronoi.grow (ParticleVertex : NjFloat4) (NewUV : NjFloat2) : NjFloat4 :=
  let ParticleVertex := { ParticleVertex with x := MIN ParticleVertex.x NewUV.x }
  let ParticleVertex := { ParticleVertex with y := MIN ParticleVertex.y NewUV.y }
  let ParticleVertex := { ParticleVertex with z := MAX ParticleVertex.z NewUV.x }
  let ParticleVertex := { ParticleVertex with w := MAX ParticleVertex.w NewUV.y }
  ParticleVertex

/-- Lines 324-343 of `PerturbVoronoi`: the update of one particle's rectangle by one
sample. -/
def PerturbVoronoi.update (ParticleVertex : NjFloat4) (NewUV : NjFloat2) : NjFloat4 :=
  PerturbVoronoi.grow ParticleVertex (PerturbVoronoi.unwrap ParticleVertex NewUV)

/-- Lines 321-322 of `PerturbVoronoi`: the local `ParticleIndex` after the test on `0x2F`. -/
def PerturbVoronoi.adjustIndex (ParticleIndex : ℤ) (NewUV : NjFloat2) : ℤ :=
  if ParticleIndex = 0x2F ∧ NewUV.x < 4 / 10 then int32 (ParticleIndex + 1) else ParticleIndex

/-- The outcome of one call of `PerturbVoronoi`: the pixel it wrote, and the vertex array
after the call, `none` when one of the two `ASSERT`s failed. -/
structure PerturbResult where
  _Pixel : Pixel
  pVertices : Option (ℕ → VertexFormatPt4)

/-- The filler `PerturbVoronoi` (lines 301-344). -/
def PerturbVoronoi (EFFECT_PARTICLES_COUNT : ℤ) (x y : ℤ) (_UV : NjFloat2)
    (Params : __PerturbVoronoi) : PerturbResult :=
  let _ := (x, y)
  -- Perturb the UVs a little
  let NewUV := PerturbVoronoi.NewUV Params.pNoise _UV
  -- Use POINT SAMPLING to fetch the original color from the voronoi texture
  let X := PerturbVoronoi.texel Params.W NewUV.x
  let Y := PerturbVoronoi.texel Params.H NewUV.y
  let _Pixel := Params.pVoronoi.Get X Y 0
  -- Update the particles's Min/Max UVs
  let ParticleIndex := floatToInt _Pixel.RGBA.x
  if ParticleIndex ≥ 0 ∧ ParticleIndex < EFFECT_PARTICLES_COUNT * EFFECT_PARTICLES_COUNT then
    let ParticleVertex := (Params.pVertices ParticleIndex.toNat).Pt
    -- the local index is adjusted after the rectangle has been selected, and not read again
    let _ := PerturbVoronoi.adjustIndex ParticleIndex NewUV
    { _Pixel := _Pixel
      pVertices := some (Function.update Params.pVertices ParticleIndex.toNat
        { Pt := PerturbVoronoi.update ParticleVertex NewUV }) }
  else
    { _Pixel := _Pixel, pVertices := none }

/-! ## The head of `EffectParticles::BuildVoronoiTexture` -/

/-- The inverted (empty) rectangle written by line 358:
`( +MAX_FLOAT, +MAX_FLOAT, -MAX_FLOAT, -MAX_FLOAT )`. -/
def invertedRect (MAX_FLOAT : ℚ) : NjFloat4 :=
  ⟨MAX_FLOAT, MAX_FLOAT, -MAX_FLOAT, -MAX_FLOAT⟩

/-- Lines 356-358 of `BuildVoronoiTexture`: the loop that clears the vertices to wrong
intervals. -/
def BuildVoronoiTexture.clearVertices (EFFECT_PARTICLES_COUNT : ℤ) (MAX_FLOAT : ℚ)
    (_pVertices : ℕ → VertexFormatPt4) : ℕ → VertexFormatPt4 :=
  (List.range (EFFECT_PARTICLES_COUNT * EFFECT_PARTICLES_COUNT).toNat).foldl
    (fun V ParticleIndex =>
      Function.update V ParticleIndex
        { Pt := (V ParticleIndex).Pt.Set MAX_FLOAT MAX_FLOAT (-MAX_FLOAT) (-MAX_FLOAT) })
    _pVertices

/-- Lines 350-361 of `BuildVoronoiTexture`: the structure `S` handed to the perturbation
pass. `N` is the noise object once its wrapping parameters are set, `blank` the content of
a freshly constructed `TextureBuilder`. -/
def BuildVoronoiTexture.S (EFFECT_PARTICLES_COUNT : ℤ) (MAX_FLOAT : ℚ) (sqrtf : ℚ → ℚ)
    (pixelUV : ℤ → ℤ → NjFloat2) (blank : Pixel) (N : Noise)
    (_TB : TextureBuilder) (_pVertices : ℕ → VertexFormatPt4) : __PerturbVoronoi :=
  -- Build a voronoi pattern
  let TempVoronoi : TextureBuilder :=
    (TextureBuilder.mk _TB.GetWidth _TB.GetHeight (fun _ _ _ => blank)).Fill pixelUV
      (FillVoronoi EFFECT_PARTICLES_COUNT sqrtf N)
  -- Clear the vertices to wrong intervals
  let _pVertices := BuildVoronoiTexture.clearVertices EFFECT_PARTICLES_COUNT MAX_FLOAT _pVertices
  { pNoise := N, pVoronoi := TempVoronoi, W := TempVoronoi.GetWidth, H := TempVoronoi.GetHeight,
    pVertices := _pVertices }

/-- One axis of `PerturbVoronoi.unwrap`, spelled out: the coordinate `c` of the sample
after the test against the rectangle's min `lo` (line 328 or 330) and then the test
against its max `hi` (line 335 or 337). Proved equal to the embedding of the code in
`unwrap_x` and `unwrap_y`. -/
def axisUnwrap (lo hi c : ℚ) : ℚ :=
  let c1 := if c - lo > 2 / 10 then c - 1 else c
  if hi - c1 > 2 / 10 then c1 + 1 else c1

/-! ## `ProbeStruct` of `EffectGlobalIllum2.h` -/

/-- The constant `MAX_PROBE_SETS`. -/
abbrev MAX_PROBE_SETS : ℕ := 16

/-- The constant `MAX_SET_SAMPLES`: accept a maximum of 64 samples per set. -/
abbrev MAX_SET_SAMPLES : ℕ := 64

/-- The structure `ProbeStruct::SetInfos::Sample`. -/
structure Sample where
  Position : NjFloat3
  Normal : NjFloat3
  Radius : ℚ

/-- The structure `ProbeStruct::SetInfos`. -/
structure SetInfos where
  Position : NjFloat3
  Normal : NjFloat3
  Tangent : NjFloat3
  BiTangent : NjFloat3
  Albedo : NjFloat3
  pSHBounce : Fin 9 → NjFloat3
  SamplesCount : ℕ
  pSamples : Fin MAX_SET_SAMPLES → Sample

/-- The probe structure `ProbeStruct`; `pSceneProbe` is the address of the scene probe. -/
structure ProbeStruct where
  pSceneProbe : ℕ
  pSHOcclusion : Fin 9 → ℚ
  pSHBounceStatic : Fin 9 → NjFloat3
  MeanDistance : ℚ
  MeanHarmonicDistance : ℚ
  MinDistance : ℚ
  MaxDistance : ℚ
  BBoxMin : NjFloat3
  BBoxMax : NjFloat3
  SetsCount : ℕ
  pSetInfos : Fin MAX_PROBE_SETS → SetInfos
  pSHBouncedLight : Fin 9 → NjFloat3

/-- Modelled from the spec: `ProbeStruct::ClearLightBounce` (declared at line 113 of
`EffectGlobalIllum2.h`, its body is not in the sources): "resets the probe's accumulated
bounced-light SH to the supplied ambient baseline (9 vectors)". -/
def ProbeStruct.ClearLightBounce (p : ProbeStruct) (_pSHAmbient : Fin 9 → NjFloat3) :
    ProbeStruct :=
  { p with pSHBouncedLight := _pSHAmbient }

/-- Modelled from the spec: `ProbeStruct::AccumulateLightBounce` (declared at line 116 of
`EffectGlobalIllum2.h`, its body is not in the sources): "for a given set, computes the SH
product of the set's precomputed static-bounce SH and the set's current incoming-light SH,
and adds the result into the probe's accumulator", the product being the coefficient-wise
multiplication. The declaration only takes the SH array `_pSHSet`; the model names the set
by its index `SetIndex` in `pSetInfos`, whose `pSHBounce` is the static-bounce SH. -/
def ProbeStruct.AccumulateLightBounce (p : ProbeStruct) (SetIndex : Fin MAX_PROBE_SETS)
    (_pSHSet : Fin 9 → NjFloat3) : ProbeStruct :=
  { p with
    pSHBouncedLight := fun i =>
      NjFloat3.add (p.pSHBouncedLight i)
        (NjFloat3.mul ((p.pSetInfos SetIndex).pSHBounce i) (_pSHSet i)) }

/-- One `AccumulateLightBounce` call per entry of `sets`, in the order of the list. -/
def ProbeStruct.accumulateAll (p : ProbeStruct)
    (sets : List (Fin MAX_PROBE_SETS × (Fin 9 → NjFloat3))) : ProbeStruct :=
  sets.foldl (fun q s => q.AccumulateLightBounce s.1 s.2) p

/-- The sum over `sets` of the coefficient-wise products
`staticBounceSH_set[i] * incomingSH_set[i]`, per colour channel. -/
def bounceSum (p : ProbeStruct) (sets : List (Fin MAX_PROBE_SETS × (Fin 9 → NjFloat3)))
    (i : Fin 9) : NjFloat3 :=
  ⟨(sets.map (fun s => ((p.pSetInfos s.1).pSHBounce i).x * (s.2 i).x)).sum,
   (sets.map (fun s => ((p.pSetInfos s.1).pSHBounce i).y * (s.2 i).y)).sum,
   (sets.map (fun s => ((p.pSetInfos s.1).pSHBounce i).z * (s.2 i).z)).sum⟩

/-! ## The buffer bookkeeping of `EffectParticles::Render` -/

/-- The fields of `EffectParticles` that `Render` assigns: the three position render
targets, the two normal and the two tangent render targets (each slot holds the address of
a `Texture2D`), and the `DeltaTime` member of the constant buffer `m_pCB_Render`. -/
structure EffectParticles where
  m_ppRTParticlePositions : Fin 3 → ℕ
  m_ppRTParticleNormals : Fin 2 → ℕ
  m_ppRTParticleTangents : Fin 2 → ℕ
  DeltaTime : NjFloat2

/-- The method `EffectParticles::Render` (lines 183-268), as far as it assigns members of
the effect: the draw calls leave every member untouched. -/
def EffectParticles.Render (e : EffectParticles) (_Time _DeltaTime : ℚ) : EffectParticles :=
  let _ := _Time
  let e := { e with DeltaTime := { e.DeltaTime with x := 10 * _DeltaTime } }
  -- Scroll positions for integration next frame
  let pTemp := e.m_ppRTParticlePositions 0
  let e := { e with
    m_ppRTParticlePositions :=
      Function.update e.m_ppRTParticlePositions 0 (e.m_ppRTParticlePositions 1) }
  let e := { e with
    m_ppRTParticlePositions :=
      Function.update e.m_ppRTParticlePositions 1 (e.m_ppRTParticlePositions 2) }
  let e := { e with
    m_ppRTParticlePositions :=
      Function.update e.m_ppRTParticlePositions 2 pTemp }
  -- Swap normals & tangents
  let pTemp := e.m_ppRTParticleNormals 0
  let e := { e with
    m_ppRTParticleNormals :=
      Function.update e.m_ppRTParticleNormals 0 (e.m_ppRTParticleNormals 1) }
  let e := { e with
    m_ppRTParticleNormals :=
      Function.update e.m_ppRTParticleNormals 1 pTemp }
  let pTemp := e.m_ppRTParticleTangents 0
  let e := { e with
    m_ppRTParticleTangents :=
      Function.update e.m_ppRTParticleTangents 0 (e.m_ppRTParticleTangents 1) }
  let e := { e with
    m_ppRTParticleTangents :=
      Function.update e.m_ppRTParticleTangents 1 pTemp }
  -- Keep delta time for next time
  let e := { e with DeltaTime := { e.DeltaTime with y := 1 } }
  e

/-- Consecutive `Render` calls, one per entry `(_Time, _DeltaTime)` of `calls`. -/
def EffectParticles.renderMany (e : EffectParticles) (calls : List (ℚ × ℚ)) : EffectParticles :=
  calls.foldl (fun s c => s.Render c.1 c.2) e

/-! ## The constructor `EffectParticles::EffectParticles` and the cell centres -/

/-- The row-major index `EFFECT_PARTICLES_COUNT*Y+X` of the cell or particle `(X, Y)`, as
lines 77 and 379 compute it (in `int` arithmetic). -/
def particleIndex (EFFECT_PARTICLES_COUNT X Y : ℤ) : ℤ :=
  int32 (int32 (EFFECT_PARTICLES_COUNT * Y) + X)

/-- Lines 376-379 of `BuildVoronoiTexture`: the loops that store the centre of every cell
(in UV space). `CellularGetCenter` is the method of the class `Noise` of that name, as a
function of the cell and the wrap flag to the centre it writes. -/
def BuildVoronoiTexture.cellCenters (EFFECT_PARTICLES_COUNT : ℤ)
    (CellularGetCenter : ℤ → ℤ → Bool → NjFloat2) (_pCellCenters : ℕ → NjFloat2) :
    ℕ → NjFloat2 :=
  (List.range EFFECT_PARTICLES_COUNT.toNat).foldl
    (fun C (Y : ℕ) =>
      (List.range EFFECT_PARTICLES_COUNT.toNat).foldl
        (fun C (X : ℕ) =>
          Function.update C (particleIndex EFFECT_PARTICLES_COUNT (X : ℤ) (Y : ℤ)).toNat
            (CellularGetCenter (X : ℤ) (Y : ℤ) true))
        C)
    _pCellCenters

/-- The pixel format `PixelFormatRGBA32F`. -/
structure PixelFormatRGBA32F where
  R : ℚ
  G : ℚ
  B : ℚ
  A : ℚ
deriving DecidableEq

/-- The product `s * a` of a `float` and an `NjFloat3`. -/
def NjFloat3.smul (s : ℚ) (a : NjFloat3) : NjFloat3 := ⟨s * a.x, s * a.y, s * a.z⟩

/-- The method `NjFloat3::Set`. -/
def NjFloat3.Set (_ : NjFloat3) (x y z : ℚ) : NjFloat3 := ⟨x, y, z⟩

/-- What one iteration of the constructor's loop writes for the particle `(X, Y)`. -/
structure InitialParticle where
  Position : PixelFormatRGBA32F
  Normal : PixelFormatRGBA32F
  Tangent : PixelFormatRGBA32F

/-- Lines 71-72 and 77-115 of the constructor: the body of the loop for the particle
`(X, Y)`. `TWOPI`, `cosf` and `sinf` are used by the sources without being defined there. -/
def EffectParticles.initialParticle (EFFECT_PARTICLES_COUNT : ℤ) (TWOPI : ℚ)
    (cosf sinf : ℚ → ℚ) (pCellCenters : ℕ → NjFloat2) (X Y : ℤ) : InitialParticle :=
  let R : ℚ := 5 / 10 -- Great radius of the torus
  let r : ℚ := 2 / 10 -- Small radius of the torus
  let CellCenter := pCellCenters (particleIndex EFFECT_PARTICLES_COUNT X Y).toNat
  let Alpha := TWOPI * intToFloat X / intToFloat EFFECT_PARTICLES_COUNT
  let Beta := TWOPI * intToFloat Y / intToFloat EFFECT_PARTICLES_COUNT
  let T : NjFloat3 := ⟨cosf Alpha, 0, -sinf Alpha⟩
  let Center := NjFloat3.add ⟨0, 5 / 10, 0⟩ (NjFloat3.smul R T)
  let Ortho : NjFloat3 := ⟨T.z, 0, -T.x⟩
  let B : NjFloat3 := ⟨0, 1, 0⟩
  let Normal := NjFloat3.add (NjFloat3.smul (cosf Beta) T) (NjFloat3.smul (sinf Beta) B)
  let Tangent := Ortho
  let Pos := NjFloat3.add Center (NjFloat3.smul r Normal)
  -- DEBUG Generate on a plane for verification
  let Pos := { Pos with
    x := 1 / 10 * (CellCenter.x - 5 / 10 * intToFloat EFFECT_PARTICLES_COUNT) }
  let Pos := { Pos with y := 8 / 10 }
  let Pos := { Pos with
    z := 1 / 10 * (CellCenter.y - 5 / 10 * intToFloat EFFECT_PARTICLES_COUNT) }
  let Normal := Normal.Set 0 1 0 -- Facing up
  let Tangent := Tangent.Set 1 0 0 -- Right
  -- DEBUG
  { Position := ⟨Pos.x, Pos.y, Pos.z, 0⟩
    Normal := ⟨Normal.x, Normal.y, Normal.z, 0⟩
    Tangent := ⟨Tangent.x, Tangent.y, Tangent.z, 0⟩ }

/-- The three arrays filled by the constructor's loop, and the common offset of the
pointers `pScanlinePosition`, `pScanlineNormal` and `pScanlineTangent` into them. -/
structure InitialTextures where
  pInitialPositions : ℕ → PixelFormatRGBA32F
  pInitialNormals : ℕ → PixelFormatRGBA32F
  pInitialTangents : ℕ → PixelFormatRGBA32F
  pScanline : ℕ

/-- One iteration of the loop of lines 74-116: the writes through the three scanline
pointers, which then advance by one. -/
def EffectParticles.initialTextures.step (EFFECT_PARTICLES_COUNT : ℤ) (TWOPI : ℚ)
    (cosf sinf : ℚ → ℚ) (pCellCenters : ℕ → NjFloat2) (st : InitialTextures) (X Y : ℤ) :
    InitialTextures :=
  let p := EffectParticles.initialParticle EFFECT_PARTICLES_COUNT TWOPI cosf sinf pCellCenters X Y
  { pInitialPositions := Function.update st.pInitialPositions st.pScanline p.Position
    pInitialNormals := Function.update st.pInitialNormals st.pScanline p.Normal
    pInitialTangents := Function.update st.pInitialTangents st.pScanline p.Tangent
    pScanline := st.pScanline + 1 }

/-- Lines 62-116 of the constructor: the loops that build the initial positions and
orientations of the particles, starting from freshly allocated arrays. -/
def EffectParticles.initialTextures (EFFECT_PARTICLES_COUNT : ℤ) (TWOPI : ℚ)
    (cosf sinf : ℚ → ℚ) (pCellCenters : ℕ → NjFloat2)
    (pInitialPositions pInitialNormals pInitialTangents : ℕ → PixelFormatRGBA32F) :
    InitialTextures :=
  (List.range EFFECT_PARTICLES_COUNT.toNat).foldl
    (fun st (Y : ℕ) =>
      (List.range EFFECT_PARTICLES_COUNT.toNat).foldl
        (fun st (X : ℕ) =>
          EffectParticles.initialTextures.step EFFECT_PARTICLES_COUNT TWOPI cosf sinf
            pCellCenters st (X : ℤ) (Y : ℤ))
        st)
    { pInitialPositions := pInitialPositions
      pInitialNormals := pInitialNormals
      pInitialTangents := pInitialTangents
      pScanline := 0 }

/-! ## The render targets of `EffectParticles`: creation and use -/

/-- The method `NjFloat2::Set`. -/
def NjFloat2.Set (_ : NjFloat2) (x y : ℚ) : NjFloat2 := ⟨x, y⟩

/-- The statements `delete p` and `delete[] p` on the heap, given as the list of the
addresses of the live objects. -/
def heapDelete (p : ℕ) (live : List ℕ) : List ℕ := live.filter (fun a => a ≠ p)

/-- Lines 62-64 and 118-159 of the constructor, as far as they allocate, free and assign
objects: `live` lists the addresses of the objects alive on entry, `fresh` is the
allocator behind `new` (from the live addresses to the address of the new object), `e`
the effect under construction. The value is the effect once constructed and the heap. -/
def EffectParticles.createRenderTargets (fresh : List ℕ → ℕ) (live : List ℕ)
    (e : EffectParticles) : EffectParticles × List ℕ :=
  let pInitialPositions := fresh live
  let live := pInitialPositions :: live
  let pInitialNormals := fresh live
  let live := pInitialNormals :: live
  let pInitialTangents := fresh live
  let live := pInitialTangents :: live
  -- Unfortunately, we need to create Textures to initialize our RenderTargets
  let pTempPositions := fresh live
  let live := pTempPositions :: live
  let live := heapDelete pInitialPositions live
  let pTempNormals := fresh live
  let live := pTempNormals :: live
  let live := heapDelete pInitialNormals live
  let pTempTangents := fresh live
  let live := pTempTangents :: live
  let live := heapDelete pInitialTangents live
  -- Finally, create the render targets and initialize them
  let pNew := fresh live
  let live := pNew :: live
  let e := { e with
    m_ppRTParticlePositions := Function.update e.m_ppRTParticlePositions 0 pNew }
  let pNew := fresh live
  let live := pNew :: live
  let e := { e with
    m_ppRTParticlePositions := Function.update e.m_ppRTParticlePositions 1 pNew }
  let pNew := fresh live
  let live := pNew :: live
  let e := { e with
    m_ppRTParticlePositions := Function.update e.m_ppRTParticlePositions 2 pNew }
  let live := heapDelete pTempPositions live
  let pNew := fresh live
  let live := pNew :: live
  let e := { e with
    m_ppRTParticleNormals := Function.update e.m_ppRTParticleNormals 0 pNew }
  let pNew := fresh live
  let live := pNew :: live
  let e := { e with
    m_ppRTParticleNormals := Function.update e.m_ppRTParticleNormals 1 pNew }
  let live := heapDelete pTempNormals live
  let pNew := fresh live
  let live := pNew :: live
  let e := { e with
    m_ppRTParticleTangents := Function.update e.m_ppRTParticleTangents 0 pNew }
  let pNew := fresh live
  let live := pNew :: live
  let e := { e with
    m_ppRTParticleTangents := Function.update e.m_ppRTParticleTangents 1 pNew }
  let live := heapDelete pTempTangents live
  -- Create the constant buffers
  let m_pCB_Render := fresh live
  let live := m_pCB_Render :: live
  let e := { e with DeltaTime := e.DeltaTime.Set 0 1 }
  (e, live)

/-- The seven render-target slots of the effect, in the order positions 0, 1, 2,
normals 0, 1, tangents 0, 1. -/
def EffectParticles.slots (e : EffectParticles) : List ℕ :=
  [e.m_ppRTParticlePositions 0, e.m_ppRTParticlePositions 1, e.m_ppRTParticlePositions 2,
   e.m_ppRTParticleNormals 0, e.m_ppRTParticleNormals 1,
   e.m_ppRTParticleTangents 0, e.m_ppRTParticleTangents 1]

/-- Lines 189-192 of `Render`: the render targets of the compute pass. -/
def EffectParticles.Render.ppRenderTargets (e : EffectParticles) : List ℕ :=
  [e.m_ppRTParticlePositions 2, e.m_ppRTParticleNormals 1, e.m_ppRTParticleTangents 1]

/-- Lines 200-203 of `Render`: the textures the compute pass reads (pixel-shader slots
10 to 13). -/
def EffectParticles.Render.computeInputs (e : EffectParticles) : List ℕ :=
  [e.m_ppRTParticlePositions 0, e.m_ppRTParticlePositions 1, e.m_ppRTParticleNormals 0,
   e.m_ppRTParticleTangents 0]

/-- Lines 235-237 of `Render`: the render targets the display pass reads (vertex-shader
slots 10 to 12); these lines run after the scroll and the swaps of lines 207-220, on the
members as the call leaves them. -/
def EffectParticles.Render.displayInputs (e : EffectParticles) (_Time _DeltaTime : ℚ) :
    List ℕ :=
  let e := e.Render _Time _DeltaTime
  [e.m_ppRTParticlePositions 1, e.m_ppRTParticleNormals 0, e.m_ppRTParticleTangents 0]

/-! ## Concrete inputs on which the theorems are exercised -/

/-- A 4 x 4 raw partition whose texel `(X, Y)` holds the particle index `X + 4 * Y`. -/
def examplePartition : TextureBuilder :=
  ⟨4, 4, fun _ X Y => ⟨⟨intToFloat (X + 4 * Y), 0, 0, 0⟩⟩⟩

/-- A noise object whose Perlin vector is never zero and whose cellular search always
reports the cell `(3, 5)` at squared distance 4. -/
def exampleNoise : Noise :=
  ⟨fun _ => ⟨1, 1⟩, fun _ _ => ⟨fun _ => 4, fun _ => 3, fun _ => 5, fun _ => 0⟩⟩

/-- Parameters of a perturbation pass over `examplePartition`, every rectangle being
`(1/4, 1/4, 1/2, 1/2)`. -/
def exampleParams : __PerturbVoronoi :=
  ⟨exampleNoise, examplePartition, 4, 4, fun _ => ⟨⟨1 / 4, 1 / 4, 1 / 2, 1 / 2⟩⟩⟩

/-- A probe whose set `k` has the static-bounce SH `(k + 1, 1, 2)` in every coefficient. -/
def exampleProbe : ProbeStruct :=
  { pSceneProbe := 0
    pSHOcclusion := fun _ => 1
    pSHBounceStatic := fun _ => ⟨0, 0, 0⟩
    MeanDistance := 1
    MeanHarmonicDistance := 1
    MinDistance := 1
    MaxDistance := 1
    BBoxMin := ⟨0, 0, 0⟩
    BBoxMax := ⟨1, 1, 1⟩
    SetsCount := 2
    pSetInfos := fun k =>
      { Position := ⟨0, 0, 0⟩
        Normal := ⟨0, 1, 0⟩
        Tangent := ⟨1, 0, 0⟩
        BiTangent := ⟨0, 0, 1⟩
        Albedo := ⟨1, 1, 1⟩
        pSHBounce := fun _ => ⟨(k.val : ℚ) + 1, 1, 2⟩
        SamplesCount := 0
        pSamples := fun _ => ⟨⟨0, 0, 0⟩, ⟨0, 1, 0⟩, 1⟩ }
    pSHBouncedLight := fun _ => ⟨7, 7, 7⟩ }

/-- An effect whose seven render-target slots hold seven different buffers. -/
def exampleEffect : EffectParticles :=
  ⟨fun i => i.val, fun i => 3 + i.val, fun i => 5 + i.val, ⟨0, 1⟩⟩

/-- A 1 x 1 raw partition whose only texel holds the particle index `0x2F`. -/
def examplePartition0x2F : TextureBuilder :=
  ⟨1, 1, fun _ _ _ => ⟨⟨intToFloat 0x2F, 0, 0, 0⟩⟩⟩

/-- Parameters of a perturbation pass over `examplePartition0x2F`, the rectangle of
particle `k` being `(k, k, k, k)`. -/
def exampleParams0x2F : __PerturbVoronoi :=
  ⟨exampleNoise, examplePartition0x2F, 1, 1, fun k => ⟨⟨k, k, k, k⟩⟩⟩

/-- A 6 x 6 raw partition whose texel `(X, Y)` holds the particle index `X + 6 * Y`. -/
def examplePartition6 : TextureBuilder :=
  ⟨6, 6, fun _ X Y => ⟨⟨intToFloat (X + 6 * Y), 0, 0, 0⟩⟩⟩

/-- Parameters of a perturbation pass over `examplePartition6`. -/
def exampleParams6 : __PerturbVoronoi :=
  ⟨exampleNoise, examplePartition6, 6, 6, fun _ => ⟨⟨1 / 4, 1 / 4, 1 / 2, 1 / 2⟩⟩⟩

/-- An allocator for the examples: one more than the sum of the live addresses. -/
def exampleFresh (live : List ℕ) : ℕ := live.sum + 1

/-! ## Auxiliary lemmas -/

theorem int32_eq_self {x : ℤ} (h1 : -2 ^ 31 ≤ x) (h2 : x < 2 ^ 31) : int32 x = x := by
  unfold int32
  omega

theorem floatToInt_intCast {n : ℤ} (h1 : -2 ^ 31 ≤ n) (h2 : n < 2 ^ 31) :
    floatToInt (n : ℚ) = n := by
  unfold floatToInt
  split_ifs <;> simp [int32_eq_self h1 h2]

theorem NewUV_eq (pNoise : Noise) (_UV : NjFloat2) : PerturbVoronoi.NewUV pNoise _UV = _UV := by
  simp [PerturbVoronoi.NewUV, NjFloat2.add, NjFloat2.smul]

theorem roundHalfEven_intCast (m : ℤ) : roundHalfEven (m : ℚ) = m := by
  unfold roundHalfEven
  simp

theorem roundHalfEven_error (q : ℚ) : |(roundHalfEven q : ℚ) - q| ≤ 1 / 2 := by
  unfold roundHalfEven
  have h1 := Int.floor_le q
  have h2 := Int.lt_floor_add_one q
  rw [abs_le]
  split_ifs with a b c
  · constructor <;> linarith
  · push_cast; constructor <;> linarith
  · constructor <;> linarith
  · push_cast; constructor <;> linarith

theorem roundHalfEven_nonneg {q : ℚ} (h : 0 ≤ q) : 0 ≤ roundHalfEven q := by
  have hf : 0 ≤ ⌊q⌋ := Int.floor_nonneg.mpr h
  unfold roundHalfEven
  split_ifs <;> omega

theorem ulp32_pos (x : ℚ) : 0 < ulp32 x := by
  unfold ulp32
  positivity

theorem binary32_nonneg {x : ℚ} (h : 0 ≤ x) : 0 ≤ binary32 x := by
  unfold binary32
  have := roundHalfEven_nonneg (div_nonneg h (ulp32_pos x).le)
  have h2 : (0 : ℚ) ≤ (roundHalfEven (x / ulp32 x) : ℚ) := by exact_mod_cast this
  exact mul_nonneg h2 (ulp32_pos x).le

theorem binary32_error (x : ℚ) : |binary32 x - x| ≤ ulp32 x / 2 := by
  unfold binary32
  have hpos := ulp32_pos x
  have h := roundHalfEven_error (x / ulp32 x)
  have e : (roundHalfEven (x / ulp32 x) : ℚ) * ulp32 x - x
      = ((roundHalfEven (x / ulp32 x) : ℚ) - x / ulp32 x) * ulp32 x := by
    field_simp
  rw [e, abs_mul, abs_of_pos hpos]
  calc |(roundHalfEven (x / ulp32 x) : ℚ) - x / ulp32 x| * ulp32 x
      ≤ 1 / 2 * ulp32 x := mul_le_mul_of_nonneg_right h hpos.le
    _ = ulp32 x / 2 := by ring

theorem ulp32_le {x : ℚ} {k : ℤ} (hk : -125 ≤ k) (h0 : 0 < x) (hx : x < 2 ^ k) :
    ulp32 x ≤ 2 ^ (k - 24) := by
  unfold ulp32
  rw [abs_of_pos h0]
  have hlog : Int.log 2 x < k := by
    rw [← Int.lt_zpow_iff_log_lt (by norm_num) h0]
    exact_mod_cast hx
  apply zpow_le_zpow_right₀ (by norm_num)
  omega

theorem binary32_exact {x : ℚ} (m : ℤ) (h : x = (m : ℚ) * ulp32 x) : binary32 x = x := by
  unfold binary32
  have hpos := ulp32_pos x
  have : x / ulp32 x = (m : ℚ) := by
    rw [div_eq_iff hpos.ne']
    exact h
  rw [this, roundHalfEven_intCast]
  exact h.symm


theorem binary32_intCast {n : ℤ} (h : |n| ≤ 2 ^ 24) : binary32 (n : ℚ) = (n : ℚ) := by
  rcases eq_or_ne n 0 with h0 | h0
  · subst h0
    simp [binary32, roundHalfEven]
  have habs : (1 : ℚ) ≤ |(n : ℚ)| := by
    have : (1 : ℤ) ≤ |n| := Int.one_le_abs h0
    exact_mod_cast this
  have hpos : (0 : ℚ) < |(n : ℚ)| := by linarith
  have hle : |(n : ℚ)| ≤ 2 ^ 24 := by exact_mod_cast h
  have hlo : 0 ≤ Int.log 2 |(n : ℚ)| := by
    rw [← Int.zpow_le_iff_le_log (by norm_num) hpos]
    simpa using habs
  have hhi : Int.log 2 |(n : ℚ)| < 25 := by
    rw [← Int.lt_zpow_iff_log_lt (by norm_num) hpos]
    have : |(n : ℚ)| < 2 ^ 25 := by linarith
    exact_mod_cast this
  have hulp : ulp32 (n : ℚ) = (2 : ℚ) ^ (Int.log 2 |(n : ℚ)| - 23) := by
    unfold ulp32
    rw [max_eq_left (by omega)]
  rcases Int.lt_or_le (Int.log 2 |(n : ℚ)|) 24 with hlt | hge
  · obtain ⟨j, hj⟩ : ∃ j : ℕ, Int.log 2 |(n : ℚ)| - 23 = -(j : ℤ) :=
      ⟨(23 - Int.log 2 |(n : ℚ)|).toNat, by omega⟩
    apply binary32_exact (n * 2 ^ j)
    rw [hulp, hj, zpow_neg, zpow_natCast]
    push_cast
    field_simp
  · have he : Int.log 2 |(n : ℚ)| = 24 := by omega
    have h24 : (2 : ℚ) ^ (24 : ℤ) ≤ |(n : ℚ)| := by
      have := Int.zpow_log_le_self (b := 2) (r := |(n : ℚ)|) (by norm_num) hpos
      rw [he] at this
      exact_mod_cast this
    have hq : |(n : ℚ)| = 2 ^ 24 := le_antisymm hle (by exact_mod_cast h24)
    have hz : |n| = 2 ^ 24 := by exact_mod_cast hq
    have hdvd : n = (n / 2) * 2 := by
      rcases abs_cases n with ⟨ha, -⟩ | ⟨ha, -⟩ <;> omega
    apply binary32_exact (n / 2)
    rw [hulp, he]
    have : ((n : ℤ) : ℚ) = (((n / 2) * 2 : ℤ) : ℚ) := by rw [← hdvd]
    rw [this]
    push_cast
    norm_num

theorem binary32_near {x : ℚ} {k : ℤ} (hk : -125 ≤ k) (h0 : 0 < x) (hx : x < 2 ^ k) :
    |binary32 x - x| ≤ 2 ^ (k - 25) := by
  have h1 := binary32_error x
  have h2 := ulp32_le hk h0 hx
  have h3 : (2 : ℚ) ^ (k - 24) / 2 = 2 ^ (k - 25) := by
    rw [show k - 24 = (k - 25) + 1 by ring, zpow_add_one₀ (by norm_num)]
    ring
  linarith


theorem floor_le_roundHalfEven (q : ℚ) : ⌊q⌋ ≤ roundHalfEven q := by
  unfold roundHalfEven
  split_ifs <;> omega

theorem roundHalfEven_le_ceil (q : ℚ) : roundHalfEven q ≤ ⌈q⌉ := by
  have hfc : ⌊q⌋ ≤ ⌈q⌉ := Int.floor_le_ceil q
  have hlt : ∀ _ : (q - (⌊q⌋ : ℤ) ≠ 0), ⌊q⌋ + 1 ≤ ⌈q⌉ := by
    intro hne
    have h1 : ((⌊q⌋ : ℤ) : ℚ) < q := lt_of_le_of_ne (Int.floor_le q) (fun h => hne (by rw [h]; ring))
    have h2 : ((⌊q⌋ : ℤ) : ℚ) < ((⌈q⌉ : ℤ) : ℚ) := lt_of_lt_of_le h1 (Int.le_ceil q)
    have : ⌊q⌋ < ⌈q⌉ := by exact_mod_cast h2
    omega
  unfold roundHalfEven
  split_ifs with a b c
  · exact hfc
  · exact hlt (by linarith)
  · exact hfc
  · exact hlt (by linarith)

theorem ulp32_small {x : ℚ} (h0 : 0 < x) (hx : x < 2 ^ 24) :
    ∃ j : ℕ, ulp32 x = ((2 : ℚ) ^ j)⁻¹ := by
  have hlog : Int.log 2 x < 24 := by
    rw [← Int.lt_zpow_iff_log_lt (by norm_num) h0]
    exact_mod_cast hx
  refine ⟨(23 - max (Int.log 2 x) (-126)).toNat, ?_⟩
  unfold ulp32
  rw [abs_of_pos h0, ← zpow_natCast, ← zpow_neg]
  congr 1
  have : max (Int.log 2 x) (-126) ≤ 23 := by
    rcases max_cases (Int.log 2 x) (-126) with ⟨h, -⟩ | ⟨h, -⟩ <;> omega
  omega

theorem intCast_le_binary32 {x : ℚ} {k : ℤ} (h0 : 0 ≤ x) (hx : x < 2 ^ 24) (hk : (k : ℚ) ≤ x)
    (hk0 : 0 ≤ k) : (k : ℚ) ≤ binary32 x := by
  rcases eq_or_lt_of_le h0 with hz | hpos
  · have hk' : k = 0 := by
      have : (k : ℚ) ≤ 0 := by rw [hz]; exact hk
      have : k ≤ 0 := by exact_mod_cast this
      omega
    subst hk'
    simpa using binary32_nonneg h0
  obtain ⟨j, hj⟩ := ulp32_small hpos hx
  have hp : (0 : ℚ) < 2 ^ j := by positivity
  unfold binary32
  rw [hj, div_inv_eq_mul]
  have hK : (((k * 2 ^ j : ℤ)) : ℚ) ≤ x * 2 ^ j := by
    push_cast
    exact mul_le_mul_of_nonneg_right hk hp.le
  have h1 : k * 2 ^ j ≤ ⌊x * 2 ^ j⌋ := Int.le_floor.mpr hK
  have h2 := floor_le_roundHalfEven (x * 2 ^ j)
  have h3 : ((k * 2 ^ j : ℤ) : ℚ) ≤ (roundHalfEven (x * 2 ^ j) : ℚ) := by
    exact_mod_cast h1.trans h2
  push_cast at h3
  rw [le_mul_inv_iff₀ hp]
  exact h3

theorem binary32_le_intCast {x : ℚ} {k : ℤ} (h0 : 0 ≤ x) (hx : x < 2 ^ 24) (hk : x ≤ (k : ℚ)) :
    binary32 x ≤ (k : ℚ) := by
  rcases eq_or_lt_of_le h0 with hz | hpos
  · rw [← hz] at hk ⊢
    simpa [binary32, roundHalfEven] using hk
  obtain ⟨j, hj⟩ := ulp32_small hpos hx
  have hp : (0 : ℚ) < 2 ^ j := by positivity
  unfold binary32
  rw [hj, div_inv_eq_mul]
  have hK : x * 2 ^ j ≤ (((k * 2 ^ j : ℤ)) : ℚ) := by
    push_cast
    exact mul_le_mul_of_nonneg_right hk hp.le
  have h1 : ⌈x * 2 ^ j⌉ ≤ k * 2 ^ j := Int.ceil_le.mpr hK
  have h2 := roundHalfEven_le_ceil (x * 2 ^ j)
  have h3 : (roundHalfEven (x * 2 ^ j) : ℚ) ≤ ((k * 2 ^ j : ℤ) : ℚ) := by
    exact_mod_cast h2.trans h1
  push_cast at h3
  rw [mul_inv_le_iff₀ hp]
  exact h3

theorem floor_binary32 {x : ℚ} (h0 : 0 ≤ x) (hx : x < 2 ^ 24) :
    ⌊x⌋ ≤ ⌊binary32 x⌋ ∧ ⌊binary32 x⌋ ≤ ⌊x⌋ + 1 := by
  have hf0 : 0 ≤ ⌊x⌋ := Int.floor_nonneg.mpr h0
  constructor
  · exact Int.le_floor.mpr (intCast_le_binary32 h0 hx (Int.floor_le x) hf0)
  · have h1 : x ≤ ((⌊x⌋ + 1 : ℤ) : ℚ) := by
      push_cast
      exact (Int.lt_floor_add_one x).le
    have h2 := binary32_le_intCast h0 hx h1
    have h3 := Int.floor_le_floor h2
    rwa [Int.floor_intCast] at h3

theorem ulp32_of_bracket {x : ℚ} {e : ℤ} (he : -126 ≤ e) (h1 : (2 : ℚ) ^ e ≤ |x|)
    (h2 : |x| < (2 : ℚ) ^ (e + 1)) : ulp32 x = (2 : ℚ) ^ (e - 23) := by
  have hpos : (0 : ℚ) < |x| := lt_of_lt_of_le (by positivity) h1
  have hlo : e ≤ Int.log 2 |x| := by
    rw [← Int.zpow_le_iff_le_log (by norm_num) hpos]
    exact_mod_cast h1
  have hhi : Int.log 2 |x| < e + 1 := by
    rw [← Int.lt_zpow_iff_log_lt (by norm_num) hpos]
    exact_mod_cast h2
  unfold ulp32
  rw [max_eq_left (by omega), show Int.log 2 |x| = e by omega]

theorem roundHalfEven_up {q : ℚ} (f : ℤ) (h1 : (f : ℚ) + 1 / 2 < q) (h2 : q < (f : ℚ) + 1) :
    roundHalfEven q = f + 1 := by
  have hf : ⌊q⌋ = f := by
    rw [Int.floor_eq_iff]
    constructor <;> linarith
  unfold roundHalfEven
  rw [hf, if_neg (by linarith), if_pos (by linarith)]

theorem roundHalfEven_tie_odd {q : ℚ} (f : ℤ) (h1 : q = (f : ℚ) + 1 / 2) (hodd : f % 2 = 1) :
    roundHalfEven q = f + 1 := by
  have hf : ⌊q⌋ = f := by
    rw [Int.floor_eq_iff]
    constructor <;> linarith
  unfold roundHalfEven
  rw [hf, if_neg (by linarith), if_neg (by linarith), if_neg (by omega)]

theorem binary32_example_product : binary32 (13981013 / 16777216 * 6) = 5 := by
  have hu : ulp32 (13981013 / 16777216 * 6) = (2 : ℚ) ^ ((2 : ℤ) - 23) := by
    apply ulp32_of_bracket (by norm_num)
    · rw [abs_of_pos (by norm_num)]; norm_num
    · rw [abs_of_pos (by norm_num)]; norm_num
  unfold binary32
  rw [hu, roundHalfEven_up 10485759 (by norm_num) (by norm_num)]
  norm_num

theorem binary32_example_index : binary32 ((16793603 : ℤ) : ℚ) = 16793604 := by
  have hu : ulp32 ((16793603 : ℤ) : ℚ) = (2 : ℚ) ^ ((24 : ℤ) - 23) := by
    apply ulp32_of_bracket (by norm_num)
    · rw [abs_of_pos (by norm_num)]; norm_num
    · rw [abs_of_pos (by norm_num)]; norm_num
  unfold binary32
  rw [hu, roundHalfEven_tie_odd 8396801 (by norm_num) (by norm_num)]
  norm_num

/-- Above `2 ^ 24` the conversion of line 299 rounds: with `N = 4098` the index of the
cell `(4097, 4097)`, `16793603`, is stored as `16793604 = N * N`. -/
theorem intToFloat_example_index :
    intToFloat (4098 * 4097 + 4097) = ((4098 * 4098 : ℤ) : ℚ) := by
  rw [show (4098 * 4097 + 4097 : ℤ) = 16793603 by norm_num]
  unfold intToFloat
  rw [binary32_example_index]
  norm_num

theorem intToFloat_eq {n : ℤ} (h : |n| ≤ 2 ^ 24) : intToFloat n = (n : ℚ) :=
  binary32_intCast h

theorem floor_binary32_eq {x : ℚ} {f : ℤ} (hf0 : 0 ≤ f) (hx : x < 2 ^ 24) (h1 : (f : ℚ) ≤ x)
    (h2 : x < (f : ℚ) + 1 / 2) : ⌊binary32 x⌋ = f := by
  have hx0 : 0 ≤ x := le_trans (by exact_mod_cast hf0) h1
  rw [Int.floor_eq_iff]
  refine ⟨intCast_le_binary32 hx0 hx h1 hf0, ?_⟩
  rcases eq_or_lt_of_le hx0 with hz | hpos
  · rw [← hz] at h2 ⊢
    have : binary32 0 = 0 := by simp [binary32, roundHalfEven]
    rw [this]
    linarith
  · have hnear := binary32_near (k := 24) (by norm_num) hpos (by exact_mod_cast hx)
    rw [abs_le] at hnear
    have : (2 : ℚ) ^ ((24 : ℤ) - 25) = 1 / 2 := by norm_num
    rw [this] at hnear
    linarith

theorem product_bounds {W : ℤ} {u : ℚ} (hW : 0 < W) (hW2 : W ≤ 2 ^ 24) (h0 : 0 ≤ u)
    (h1 : u < 1) :
    0 ≤ u * (W : ℚ) ∧ u * (W : ℚ) < 2 ^ 24 ∧ u * (W : ℚ) ≤ (W : ℚ) := by
  have hWq : (0 : ℚ) < (W : ℚ) := by exact_mod_cast hW
  have hW2q : (W : ℚ) ≤ 2 ^ 24 := by exact_mod_cast hW2
  refine ⟨mul_nonneg h0 hWq.le, ?_, ?_⟩ <;> nlinarith

theorem texel_eq {W : ℤ} {u : ℚ} (hW : 0 < W) (hW2 : W ≤ 2 ^ 24) (h0 : 0 ≤ u) (h1 : u < 1) :
    PerturbVoronoi.texel W u = ⌊binary32 (u * (W : ℚ))⌋ % W ∧
    0 ≤ ⌊binary32 (u * (W : ℚ))⌋ ∧ ⌊binary32 (u * (W : ℚ))⌋ ≤ W := by
  obtain ⟨hx0, hx1, hx2⟩ := product_bounds hW hW2 h0 h1
  have hf0 : 0 ≤ ⌊binary32 (u * (W : ℚ))⌋ := Int.floor_nonneg.mpr (binary32_nonneg hx0)
  have hf1 : ⌊binary32 (u * (W : ℚ))⌋ ≤ W := by
    have h := Int.floor_le_floor (binary32_le_intCast hx0 hx1 hx2)
    rwa [Int.floor_intCast] at h
  refine ⟨?_, hf0, hf1⟩
  unfold PerturbVoronoi.texel floorf
  rw [intToFloat_eq (by rw [abs_of_pos hW]; exact hW2)]
  rw [floatToInt_intCast (by omega) (by omega), int32_eq_self (by omega) (by omega)]
  rw [Int.tmod_eq_emod (by omega) (by omega)]
  rw [Int.add_emod_self_left]

theorem unwrap_x (r : NjFloat4) (s : NjFloat2) :
    (PerturbVoronoi.unwrap r s).x = axisUnwrap r.x r.z s.x := by
  unfold PerturbVoronoi.unwrap axisUnwrap
  dsimp only
  split_ifs <;> simp_all

theorem unwrap_y (r : NjFloat4) (s : NjFloat2) :
    (PerturbVoronoi.unwrap r s).y = axisUnwrap r.y r.w s.y := by
  unfold PerturbVoronoi.unwrap axisUnwrap
  dsimp only
  split_ifs <;> simp_all

theorem update_eq (r : NjFloat4) (s : NjFloat2) :
    PerturbVoronoi.update r s =
      ⟨MIN r.x (axisUnwrap r.x r.z s.x), MIN r.y (axisUnwrap r.y r.w s.y),
       MAX r.z (axisUnwrap r.x r.z s.x), MAX r.w (axisUnwrap r.y r.w s.y)⟩ := by
  simp only [PerturbVoronoi.update, PerturbVoronoi.grow, unwrap_x, unwrap_y]

theorem axisUnwrap_inverted {M c : ℚ} (hM : 1 ≤ M) (h0 : 0 ≤ c) (h1 : c < 1) :
    axisUnwrap M (-M) c = c ∧ MIN M c = c ∧ MAX (-M) c = c := by
  unfold axisUnwrap MIN MAX
  have a1 : ¬ (c - M > 2 / 10) := by linarith
  have a3 : ¬ (-M - c > 2 / 10) := by linarith
  have a5 : ¬ (M < c) := by linarith
  have a7 : ¬ (-M > c) := by linarith
  simp [a1, a3, a5, a7]

theorem update_inverted {MAX_FLOAT : ℚ} (hM : 1 ≤ MAX_FLOAT) {s : NjFloat2}
    (hu0 : 0 ≤ s.x) (hu1 : s.x < 1) (hv0 : 0 ≤ s.y) (hv1 : s.y < 1) :
    PerturbVoronoi.update (invertedRect MAX_FLOAT) s = ⟨s.x, s.y, s.x, s.y⟩ := by
  obtain ⟨e1, e2, e3⟩ := axisUnwrap_inverted hM hu0 hu1
  obtain ⟨f1, f2, f3⟩ := axisUnwrap_inverted hM hv0 hv1
  simp [update_eq, invertedRect, e1, e2, e3, f1, f2, f3]

theorem axis_width_after_two {a b : ℚ} (ha0 : 0 ≤ a) (ha1 : a < 1) (hb0 : 0 ≤ b) (hb1 : b < 1)
    (h : |a - b| > 8 / 10) :
    MAX a (axisUnwrap a a b) - MIN a (axisUnwrap a a b) = 1 - |a - b| := by
  unfold axisUnwrap MIN MAX
  rcases abs_cases (a - b) with ⟨h1, h2⟩ | ⟨h1, h2⟩
  · rw [h1] at h ⊢
    have c1 : ¬ (b - a > 2 / 10) := by linarith
    have c2 : a - b > 2 / 10 := by linarith
    simp only [c1, c2, if_true, if_false]
    split_ifs <;> linarith
  · rw [h1] at h ⊢
    have c1 : b - a > 2 / 10 := by linarith
    have c2 : ¬ (a - (b - 1) > 2 / 10) := by linarith
    simp only [c1, c2, if_true, if_false]
    split_ifs <;> linarith

theorem clearVertices_fold (M : ℚ) (n : ℕ) (V : ℕ → VertexFormatPt4) (i : ℕ) :
    (List.range n).foldl
      (fun V ParticleIndex =>
        Function.update V ParticleIndex { Pt := (V ParticleIndex).Pt.Set M M (-M) (-M) }) V i
      = if i < n then { Pt := invertedRect M } else V i := by
  induction n with
  | zero => simp
  | succ k ih =>
    rw [List.range_succ, List.foldl_append, List.foldl_cons, List.foldl_nil]
    by_cases hik : i = k
    · subst hik
      simp [NjFloat4.Set, invertedRect]
    · rw [Function.update_noteq hik, ih]
      by_cases hlt : i < k
      · have : i < k + 1 := by omega
        simp [hlt, this]
      · have : ¬ i < k + 1 := by omega
        simp [hlt, this]

theorem clearVertices_apply (N : ℤ) (M : ℚ) (V : ℕ → VertexFormatPt4) (i : ℕ) :
    BuildVoronoiTexture.clearVertices N M V i
      = if i < (N * N).toNat then { Pt := invertedRect M } else V i :=
  clearVertices_fold M (N * N).toNat V i

theorem FillVoronoi_index (N : ℤ) (hN : N * N ≤ 2 ^ 24) (sqrtf : ℚ → ℚ)
    (noise : Noise) (x y : ℤ) (_UV : NjFloat2) (_Pixel : Pixel) (cx cy : ℤ)
    (hx : cx = (noise.cellularSearch (NjFloat2.smul (intToFloat N) _UV) true)._pCellX 0)
    (hy : cy = (noise.cellularSearch (NjFloat2.smul (intToFloat N) _UV) true)._pCellY 0)
    (hcx : 0 ≤ cx ∧ cx < N) (hcy : 0 ≤ cy ∧ cy < N) :
    (FillVoronoi N sqrtf noise x y _UV _Pixel).RGBA.x = ((N * cy + cx : ℤ) : ℚ) ∧
    0 ≤ N * cy + cx ∧ N * cy + cx < N * N := by
  have hNpos : 0 < N := by omega
  have h1 : 0 ≤ N * cy := mul_nonneg hNpos.le hcy.1
  have h2 : N * cy ≤ N * (N - 1) := mul_le_mul_of_nonneg_left (by omega) hNpos.le
  have h3 : N * (N - 1) = N * N - N := by ring
  refine ⟨?_, by omega, by omega⟩
  subst hx hy
  simp only [FillVoronoi, Noise.Cellular, CombineDistances, NjFloat4.Set]
  rw [int32_eq_self (x := N * _) (by omega) (by omega), int32_eq_self (by omega) (by omega)]
  exact intToFloat_eq (by rw [abs_of_nonneg (by omega)]; omega)

theorem axisUnwrap_cases (lo hi c : ℚ) :
    (c - lo > 2 / 10 → ¬ (hi - (c - 1) > 2 / 10) → axisUnwrap lo hi c = c - 1) ∧
    (¬ (c - lo > 2 / 10) → hi - c > 2 / 10 → axisUnwrap lo hi c = c + 1) ∧
    (c - lo > 2 / 10 → hi - (c - 1) > 2 / 10 → axisUnwrap lo hi c = c) ∧
    (¬ (c - lo > 2 / 10) → ¬ (hi - c > 2 / 10) → axisUnwrap lo hi c = c) := by
  unfold axisUnwrap
  refine ⟨fun h1 h2 => ?_, fun h1 h2 => ?_, fun h1 h2 => ?_, fun h1 h2 => ?_⟩ <;>
    simp [h1, h2]

theorem accumulateAll_fields (sets : List (Fin MAX_PROBE_SETS × (Fin 9 → NjFloat3)))
    (q : ProbeStruct) :
    q.accumulateAll sets =
      { q with pSHBouncedLight := fun i => NjFloat3.add (q.pSHBouncedLight i) (bounceSum q sets i) } := by
  induction sets generalizing q with
  | nil =>
    cases q
    simp [ProbeStruct.accumulateAll, bounceSum, NjFloat3.add]
  | cons s rest ih =>
    have hstep : q.accumulateAll (s :: rest) = (q.AccumulateLightBounce s.1 s.2).accumulateAll rest := rfl
    rw [hstep, ih]
    cases q
    simp only [ProbeStruct.AccumulateLightBounce, bounceSum, NjFloat3.add, NjFloat3.mul,
      List.map_cons, List.sum_cons, ProbeStruct.mk.injEq, true_and]
    funext i
    simp only [NjFloat3.mk.injEq]
    refine ⟨by ring, by ring, by ring⟩

theorem bounceSum_perm (p : ProbeStruct) {s1 s2 : List (Fin MAX_PROBE_SETS × (Fin 9 → NjFloat3))}
    (h : s1.Perm s2) (i : Fin 9) : bounceSum p s1 i = bounceSum p s2 i := by
  unfold bounceSum
  rw [(h.map _).sum_eq, (h.map _).sum_eq, (h.map _).sum_eq]

theorem Render_slots (e : EffectParticles) (_Time _DeltaTime : ℚ) :
    (∀ i : Fin 3, (e.Render _Time _DeltaTime).m_ppRTParticlePositions i
        = e.m_ppRTParticlePositions (i + 1)) ∧
    (∀ i : Fin 2, (e.Render _Time _DeltaTime).m_ppRTParticleNormals i
        = e.m_ppRTParticleNormals (i + 1)) ∧
    (∀ i : Fin 2, (e.Render _Time _DeltaTime).m_ppRTParticleTangents i
        = e.m_ppRTParticleTangents (i + 1)) := by
  refine ⟨fun i => ?_, fun i => ?_, fun i => ?_⟩ <;>
    fin_cases i <;> simp [EffectParticles.Render, Function.update]

theorem renderMany_slots (calls : List (ℚ × ℚ)) (e : EffectParticles) :
    (∀ i : Fin 3, (e.renderMany calls).m_ppRTParticlePositions i
        = e.m_ppRTParticlePositions (i + (calls.length : Fin 3))) ∧
    (∀ i : Fin 2, (e.renderMany calls).m_ppRTParticleNormals i
        = e.m_ppRTParticleNormals (i + (calls.length : Fin 2))) ∧
    (∀ i : Fin 2, (e.renderMany calls).m_ppRTParticleTangents i
        = e.m_ppRTParticleTangents (i + (calls.length : Fin 2))) := by
  induction calls generalizing e with
  | nil => simp [EffectParticles.renderMany]
  | cons c rest ih =>
    have hstep : e.renderMany (c :: rest) = (e.Render c.1 c.2).renderMany rest := rfl
    obtain ⟨p1, n1, t1⟩ := Render_slots e c.1 c.2
    obtain ⟨p2, n2, t2⟩ := ih (e.Render c.1 c.2)
    rw [hstep]
    refine ⟨fun i => ?_, fun i => ?_, fun i => ?_⟩
    · rw [p2, p1]; congr 1; simp only [List.length_cons, Nat.cast_succ]; ring
    · rw [n2, n1]; congr 1; simp only [List.length_cons, Nat.cast_succ]; ring
    · rw [t2, t1]; congr 1; simp only [List.length_cons, Nat.cast_succ]; ring


theorem PerturbVoronoi_Pixel (N x y : ℤ) (_UV : NjFloat2) (Params : __PerturbVoronoi) :
    (PerturbVoronoi N x y _UV Params)._Pixel
      = Params.pVoronoi.Get
          (PerturbVoronoi.texel Params.W (PerturbVoronoi.NewUV Params.pNoise _UV).x)
          (PerturbVoronoi.texel Params.H (PerturbVoronoi.NewUV Params.pNoise _UV).y) 0 := by
  unfold PerturbVoronoi
  dsimp only
  split_ifs <;> rfl

theorem PerturbVoronoi_pVertices (N x y : ℤ) (_UV : NjFloat2) (Params : __PerturbVoronoi) :
    (PerturbVoronoi N x y _UV Params).pVertices =
      if 0 ≤ floatToInt (PerturbVoronoi N x y _UV Params)._Pixel.RGBA.x ∧
          floatToInt (PerturbVoronoi N x y _UV Params)._Pixel.RGBA.x < N * N then
        some (Function.update Params.pVertices
          (floatToInt (PerturbVoronoi N x y _UV Params)._Pixel.RGBA.x).toNat
          { Pt := PerturbVoronoi.update
              (Params.pVertices
                (floatToInt (PerturbVoronoi N x y _UV Params)._Pixel.RGBA.x).toNat).Pt
              (PerturbVoronoi.NewUV Params.pNoise _UV) })
      else none := by
  rw [PerturbVoronoi_Pixel]
  unfold PerturbVoronoi
  simp only [ge_iff_le]
  split_ifs <;> rfl

theorem example_floor_u : ⌊binary32 ((6 / 10 : ℚ) * ((4 : ℤ) : ℚ))⌋ = 2 :=
  floor_binary32_eq (by norm_num) (by norm_num) (by norm_num) (by norm_num)

theorem example_floor_v : ⌊binary32 ((3 / 10 : ℚ) * ((4 : ℤ) : ℚ))⌋ = 1 :=
  floor_binary32_eq (by norm_num) (by norm_num) (by norm_num) (by norm_num)

theorem example_texel_u : PerturbVoronoi.texel 4 (6 / 10) = 2 := by
  rw [(texel_eq (W := 4) (by decide) (by decide) (by norm_num) (by norm_num)).1,
    example_floor_u]
  decide

theorem example_texel_v : PerturbVoronoi.texel 4 (3 / 10) = 1 := by
  rw [(texel_eq (W := 4) (by decide) (by decide) (by norm_num) (by norm_num)).1,
    example_floor_v]
  decide

theorem examplePerturb :
    (PerturbVoronoi 8 0 0 ⟨6 / 10, 3 / 10⟩ exampleParams).pVertices
      = some (Function.update exampleParams.pVertices 6
          { Pt := PerturbVoronoi.update (exampleParams.pVertices 6).Pt ⟨6 / 10, 3 / 10⟩ }) := by
  rw [PerturbVoronoi_pVertices]
  have hpix : (PerturbVoronoi 8 0 0 ⟨6 / 10, 3 / 10⟩ exampleParams)._Pixel
      = ⟨⟨((6 : ℤ) : ℚ), 0, 0, 0⟩⟩ := by
    rw [PerturbVoronoi_Pixel, NewUV_eq]
    rw [show exampleParams.W = 4 from rfl, show exampleParams.H = 4 from rfl,
      example_texel_u, example_texel_v]
    show (⟨⟨intToFloat (2 + 4 * 1), 0, 0, 0⟩⟩ : Pixel) = _
    rw [intToFloat_eq (by decide)]
    norm_num
  have h6 : floatToInt ((6 : ℤ) : ℚ) = 6 := floatToInt_intCast (by norm_num) (by norm_num)
  rw [hpix, NewUV_eq]
  simp only [h6]
  rw [if_pos (by norm_num)]
  rfl

/-! ## The claims -/

/-- C1: starting from the inverted rectangle `(+MAX_FLOAT, +MAX_FLOAT, -MAX_FLOAT,
-MAX_FLOAT)` (any `MAX_FLOAT` of at least 1), merging two samples into the same rectangle
gives, in either order, `max.u - min.u = 1 - |u1 - u2|` whenever `u1`, `u2` are in `[0,1)`
and `|u1 - u2| > 0.8`, and `max.v - min.v = 1 - |v1 - v2|` whenever `v1`, `v2` are in
`[0,1)` and `|v1 - v2| > 0.8` (floats being exact rationals). -/
theorem PerturbVoronoi_seam_width (MAX_FLOAT : ℚ) (hM : 1 ≤ MAX_FLOAT) (s1 s2 : NjFloat2) :
    (0 ≤ s1.x ∧ s1.x < 1 → 0 ≤ s2.x ∧ s2.x < 1 → |s1.x - s2.x| > 8 / 10 →
      (PerturbVoronoi.update (PerturbVoronoi.update (invertedRect MAX_FLOAT) s1) s2).z -
        (PerturbVoronoi.update (PerturbVoronoi.update (invertedRect MAX_FLOAT) s1) s2).x
          = 1 - |s1.x - s2.x| ∧
      (PerturbVoronoi.update (PerturbVoronoi.update (invertedRect MAX_FLOAT) s2) s1).z -
        (PerturbVoronoi.update (PerturbVoronoi.update (invertedRect MAX_FLOAT) s2) s1).x
          = 1 - |s1.x - s2.x|) ∧
    (0 ≤ s1.y ∧ s1.y < 1 → 0 ≤ s2.y ∧ s2.y < 1 → |s1.y - s2.y| > 8 / 10 →
      (PerturbVoronoi.update (PerturbVoronoi.update (invertedRect MAX_FLOAT) s1) s2).w -
        (PerturbVoronoi.update (PerturbVoronoi.update (invertedRect MAX_FLOAT) s1) s2).y
          = 1 - |s1.y - s2.y| ∧
      (PerturbVoronoi.update (PerturbVoronoi.update (invertedRect MAX_FLOAT) s2) s1).w -
        (PerturbVoronoi.update (PerturbVoronoi.update (invertedRect MAX_FLOAT) s2) s1).y
          = 1 - |s1.y - s2.y|) := by
  simp only [update_eq, invertedRect]
  constructor
  · intro h1 h2 h
    obtain ⟨a1, a2, a3⟩ := axisUnwrap_inverted hM h1.1 h1.2
    obtain ⟨b1, b2, b3⟩ := axisUnwrap_inverted hM h2.1 h2.2
    simp only [a1, a2, a3, b1, b2, b3]
    refine ⟨axis_width_after_two h1.1 h1.2 h2.1 h2.2 h, ?_⟩
    rw [abs_sub_comm] at h ⊢
    exact axis_width_after_two h2.1 h2.2 h1.1 h1.2 h
  · intro h1 h2 h
    obtain ⟨a1, a2, a3⟩ := axisUnwrap_inverted hM h1.1 h1.2
    obtain ⟨b1, b2, b3⟩ := axisUnwrap_inverted hM h2.1 h2.2
    simp only [a1, a2, a3, b1, b2, b3]
    refine ⟨axis_width_after_two h1.1 h1.2 h2.1 h2.2 h, ?_⟩
    rw [abs_sub_comm] at h ⊢
    exact axis_width_after_two h2.1 h2.2 h1.1 h1.2 h

/-- Witness of C1: the samples `u = 0.02` and `u = 0.98` (both at `v = 0.5`) merged in
this order into the inverted rectangle give a rectangle of width `0.04`. -/
theorem PerturbVoronoi_seam_width_witness :
    (1 : ℚ) ≤ 340282346638528859811704183484516925440 ∧
    |(2 / 100 : ℚ) - 98 / 100| > 8 / 10 ∧
    (PerturbVoronoi.update
        (PerturbVoronoi.update (invertedRect 340282346638528859811704183484516925440)
          ⟨2 / 100, 1 / 2⟩) ⟨98 / 100, 1 / 2⟩).z -
      (PerturbVoronoi.update
        (PerturbVoronoi.update (invertedRect 340282346638528859811704183484516925440)
          ⟨2 / 100, 1 / 2⟩) ⟨98 / 100, 1 / 2⟩).x = 4 / 100 := by
  have habs : |(2 / 100 : ℚ) - 98 / 100| = 96 / 100 := by
    rw [abs_of_neg (by norm_num)]; norm_num
  refine ⟨by norm_num, by rw [habs]; norm_num, ?_⟩
  have h := ((PerturbVoronoi_seam_width 340282346638528859811704183484516925440 (by norm_num)
    ⟨2 / 100, 1 / 2⟩ ⟨98 / 100, 1 / 2⟩).1
    (by norm_num) (by norm_num) (by rw [habs]; norm_num)).1
  rw [h, habs]
  norm_num

/-- C2: when the wrapped cellular search reports cell coordinates in `[0, N)`
(`N = EFFECT_PARTICLES_COUNT`, with `N * N <= 2 ^ 24` so that every index is a `float`),
the pixel written by `FillVoronoi` holds the index `N * cellY + cellX`, unrounded, and the
index read back from it lies in `[0, N * N)`; consequently both `ASSERT`s of
`PerturbVoronoi` hold whenever the texel it fetches lies in the grid of the raw partition
built by `BuildVoronoiTexture`. -/
theorem particle_index_in_range (EFFECT_PARTICLES_COUNT : ℤ)
    (hN : EFFECT_PARTICLES_COUNT * EFFECT_PARTICLES_COUNT ≤ 2 ^ 24)
    (sqrtf : ℚ → ℚ) (N : Noise)
    (hcell : ∀ p : NjFloat2,
      (0 ≤ (N.cellularSearch p true)._pCellX 0 ∧
        (N.cellularSearch p true)._pCellX 0 < EFFECT_PARTICLES_COUNT) ∧
      (0 ≤ (N.cellularSearch p true)._pCellY 0 ∧
        (N.cellularSearch p true)._pCellY 0 < EFFECT_PARTICLES_COUNT)) :
    (∀ (x y : ℤ) (_UV : NjFloat2) (_Pixel : Pixel),
      (FillVoronoi EFFECT_PARTICLES_COUNT sqrtf N x y _UV _Pixel).RGBA.x
        = ((EFFECT_PARTICLES_COUNT *
            (N.cellularSearch (NjFloat2.smul (intToFloat EFFECT_PARTICLES_COUNT) _UV)
              true)._pCellY 0
          + (N.cellularSearch (NjFloat2.smul (intToFloat EFFECT_PARTICLES_COUNT) _UV)
              true)._pCellX 0 : ℤ) : ℚ) ∧
      0 ≤ floatToInt (FillVoronoi EFFECT_PARTICLES_COUNT sqrtf N x y _UV _Pixel).RGBA.x ∧
      floatToInt (FillVoronoi EFFECT_PARTICLES_COUNT sqrtf N x y _UV _Pixel).RGBA.x
        < EFFECT_PARTICLES_COUNT * EFFECT_PARTICLES_COUNT) ∧
    (∀ (MAX_FLOAT : ℚ) (pixelUV : ℤ → ℤ → NjFloat2) (blank : Pixel) (_TB : TextureBuilder)
        (_pVertices : ℕ → VertexFormatPt4) (x y : ℤ) (_UV : NjFloat2),
      (0 ≤ PerturbVoronoi.texel _TB.GetWidth (PerturbVoronoi.NewUV N _UV).x ∧
        PerturbVoronoi.texel _TB.GetWidth (PerturbVoronoi.NewUV N _UV).x < _TB.GetWidth) →
      (0 ≤ PerturbVoronoi.texel _TB.GetHeight (PerturbVoronoi.NewUV N _UV).y ∧
        PerturbVoronoi.texel _TB.GetHeight (PerturbVoronoi.NewUV N _UV).y < _TB.GetHeight) →
      (PerturbVoronoi EFFECT_PARTICLES_COUNT x y _UV
        (BuildVoronoiTexture.S EFFECT_PARTICLES_COUNT MAX_FLOAT sqrtf pixelUV blank N _TB
          _pVertices)).pVertices ≠ none) := by
  have key : ∀ (x y : ℤ) (_UV : NjFloat2) (_Pixel : Pixel),
      (FillVoronoi EFFECT_PARTICLES_COUNT sqrtf N x y _UV _Pixel).RGBA.x
        = ((EFFECT_PARTICLES_COUNT *
            (N.cellularSearch (NjFloat2.smul (intToFloat EFFECT_PARTICLES_COUNT) _UV)
              true)._pCellY 0
          + (N.cellularSearch (NjFloat2.smul (intToFloat EFFECT_PARTICLES_COUNT) _UV)
              true)._pCellX 0 : ℤ) : ℚ) ∧
      0 ≤ floatToInt (FillVoronoi EFFECT_PARTICLES_COUNT sqrtf N x y _UV _Pixel).RGBA.x ∧
      floatToInt (FillVoronoi EFFECT_PARTICLES_COUNT sqrtf N x y _UV _Pixel).RGBA.x
        < EFFECT_PARTICLES_COUNT * EFFECT_PARTICLES_COUNT := by
    intro x y _UV _Pixel
    obtain ⟨hx, hy⟩ := hcell (NjFloat2.smul (intToFloat EFFECT_PARTICLES_COUNT) _UV)
    obtain ⟨e, lo, hi⟩ := FillVoronoi_index EFFECT_PARTICLES_COUNT hN sqrtf N x y _UV _Pixel
      _ _ rfl rfl hx hy
    rw [e, floatToInt_intCast (by omega) (by omega)]
    exact ⟨rfl, lo, hi⟩
  refine ⟨key, ?_⟩
  intro MAX_FLOAT pixelUV blank _TB _pVertices x y _UV hX hY
  have hpx : (PerturbVoronoi EFFECT_PARTICLES_COUNT x y _UV
      (BuildVoronoiTexture.S EFFECT_PARTICLES_COUNT MAX_FLOAT sqrtf pixelUV blank N _TB
        _pVertices))._Pixel
      = FillVoronoi EFFECT_PARTICLES_COUNT sqrtf N
          (PerturbVoronoi.texel _TB.GetWidth (PerturbVoronoi.NewUV N _UV).x)
          (PerturbVoronoi.texel _TB.GetHeight (PerturbVoronoi.NewUV N _UV).y)
          (pixelUV (PerturbVoronoi.texel _TB.GetWidth (PerturbVoronoi.NewUV N _UV).x)
            (PerturbVoronoi.texel _TB.GetHeight (PerturbVoronoi.NewUV N _UV).y)) blank := by
    rw [PerturbVoronoi_Pixel]
    rw [show (BuildVoronoiTexture.S EFFECT_PARTICLES_COUNT MAX_FLOAT sqrtf pixelUV blank N _TB
        _pVertices).W = _TB.GetWidth from rfl,
      show (BuildVoronoiTexture.S EFFECT_PARTICLES_COUNT MAX_FLOAT sqrtf pixelUV blank N _TB
        _pVertices).H = _TB.GetHeight from rfl,
      show (BuildVoronoiTexture.S EFFECT_PARTICLES_COUNT MAX_FLOAT sqrtf pixelUV blank N _TB
        _pVertices).pNoise = N from rfl]
    simp only [BuildVoronoiTexture.S, TextureBuilder.Get, TextureBuilder.Fill]
    rw [if_pos ⟨trivial, hX.1, hX.2, hY.1, hY.2⟩]
  obtain ⟨-, lo, hi⟩ := key
    (PerturbVoronoi.texel _TB.GetWidth (PerturbVoronoi.NewUV N _UV).x)
    (PerturbVoronoi.texel _TB.GetHeight (PerturbVoronoi.NewUV N _UV).y)
    (pixelUV (PerturbVoronoi.texel _TB.GetWidth (PerturbVoronoi.NewUV N _UV).x)
      (PerturbVoronoi.texel _TB.GetHeight (PerturbVoronoi.NewUV N _UV).y)) blank
  rw [PerturbVoronoi_pVertices, hpx, if_pos ⟨lo, hi⟩]
  simp

/-- Witness of C2: with `N = 8` and a search that always reports the cell `(3, 5)`, the
pixel written by `FillVoronoi` holds the index `8 * 5 + 3 = 43`, and `PerturbVoronoi`
passes its `ASSERT`s at the sample `(0.6, 0.3)` of a 4 x 4 bake, which fetches the texel
`(2, 1)`. -/
theorem particle_index_in_range_witness :
    (FillVoronoi 8 (fun d => d) exampleNoise 0 0 ⟨1 / 2, 1 / 2⟩ ⟨⟨0, 0, 0, 0⟩⟩).RGBA.x = 43 ∧
    PerturbVoronoi.texel 4 (PerturbVoronoi.NewUV exampleNoise ⟨6 / 10, 3 / 10⟩).x = 2 ∧
    PerturbVoronoi.texel 4 (PerturbVoronoi.NewUV exampleNoise ⟨6 / 10, 3 / 10⟩).y = 1 ∧
    (PerturbVoronoi 8 0 0 ⟨6 / 10, 3 / 10⟩
      (BuildVoronoiTexture.S 8 1000 (fun d => d) (fun X Y => ⟨X / 4, Y / 4⟩) ⟨⟨0, 0, 0, 0⟩⟩
        exampleNoise examplePartition (fun _ => ⟨⟨0, 0, 0, 0⟩⟩))).pVertices ≠ none := by
  have h := particle_index_in_range 8 (by norm_num) (fun d => d) exampleNoise
    (fun _ => by simp [exampleNoise])
  have hX : PerturbVoronoi.texel 4 (PerturbVoronoi.NewUV exampleNoise ⟨6 / 10, 3 / 10⟩).x = 2 := by
    rw [NewUV_eq]
    exact example_texel_u
  have hY : PerturbVoronoi.texel 4 (PerturbVoronoi.NewUV exampleNoise ⟨6 / 10, 3 / 10⟩).y = 1 := by
    rw [NewUV_eq]
    exact example_texel_v
  refine ⟨?_, hX, hY, ?_⟩
  · rw [(h.1 0 0 ⟨1 / 2, 1 / 2⟩ ⟨⟨0, 0, 0, 0⟩⟩).1]
    norm_num [exampleNoise]
  · refine h.2 1000 (fun X Y => ⟨X / 4, Y / 4⟩) ⟨⟨0, 0, 0, 0⟩⟩ examplePartition
      (fun _ => ⟨⟨0, 0, 0, 0⟩⟩) 0 0 ⟨6 / 10, 3 / 10⟩ ?_ ?_
    · rw [show examplePartition.GetWidth = 4 from rfl, hX]; decide
    · rw [show examplePartition.GetHeight = 4 from rfl, hY]; decide

/-- C3: one `PerturbVoronoi` update never shrinks a rectangle: for every rectangle and
every sample, min-u and min-v do not increase and max-u and max-v do not decrease; and in
a whole call of `PerturbVoronoi` that passes its `ASSERT`s this holds for the rectangle
of every particle. -/
theorem PerturbVoronoi_update_monotone :
    (∀ (ParticleVertex : NjFloat4) (NewUV : NjFloat2),
      (PerturbVoronoi.update ParticleVertex NewUV).x ≤ ParticleVertex.x ∧
      (PerturbVoronoi.update ParticleVertex NewUV).y ≤ ParticleVertex.y ∧
      ParticleVertex.z ≤ (PerturbVoronoi.update ParticleVertex NewUV).z ∧
      ParticleVertex.w ≤ (PerturbVoronoi.update ParticleVertex NewUV).w) ∧
    (∀ (EFFECT_PARTICLES_COUNT x y : ℤ) (_UV : NjFloat2) (Params : __PerturbVoronoi)
        (after : ℕ → VertexFormatPt4),
      (PerturbVoronoi EFFECT_PARTICLES_COUNT x y _UV Params).pVertices = some after →
      ∀ ParticleIndex : ℕ,
        (after ParticleIndex).Pt.x ≤ (Params.pVertices ParticleIndex).Pt.x ∧
        (after ParticleIndex).Pt.y ≤ (Params.pVertices ParticleIndex).Pt.y ∧
        (Params.pVertices ParticleIndex).Pt.z ≤ (after ParticleIndex).Pt.z ∧
        (Params.pVertices ParticleIndex).Pt.w ≤ (after ParticleIndex).Pt.w) := by
  have one : ∀ (ParticleVertex : NjFloat4) (NewUV : NjFloat2),
      (PerturbVoronoi.update ParticleVertex NewUV).x ≤ ParticleVertex.x ∧
      (PerturbVoronoi.update ParticleVertex NewUV).y ≤ ParticleVertex.y ∧
      ParticleVertex.z ≤ (PerturbVoronoi.update ParticleVertex NewUV).z ∧
      ParticleVertex.w ≤ (PerturbVoronoi.update ParticleVertex NewUV).w := by
    intro r s
    rw [update_eq]
    simp only [MIN, MAX]
    refine ⟨?_, ?_, ?_, ?_⟩ <;> split_ifs <;> linarith
  refine ⟨one, ?_⟩
  intro N x y _UV Params after hafter i
  rw [PerturbVoronoi_pVertices] at hafter
  split_ifs at hafter with hidx
  · cases hafter
    by_cases hi : i = (floatToInt (PerturbVoronoi N x y _UV Params)._Pixel.RGBA.x).toNat
    · subst hi
      rw [Function.update_same]
      exact one _ _
    · rw [Function.update_noteq hi]
      exact ⟨le_refl _, le_refl _, le_refl _, le_refl _⟩

/-- Witness of C3: the sample `(0.6, 0.3)` of `exampleParams` fetches particle 6, whose
rectangle `(1/4, 1/4, 1/2, 1/2)` does not shrink. -/
theorem PerturbVoronoi_update_monotone_witness :
    (PerturbVoronoi 8 0 0 ⟨6 / 10, 3 / 10⟩ exampleParams).pVertices
      = some (Function.update exampleParams.pVertices 6
          { Pt := PerturbVoronoi.update (exampleParams.pVertices 6).Pt ⟨6 / 10, 3 / 10⟩ }) ∧
    (PerturbVoronoi.update (exampleParams.pVertices 6).Pt ⟨6 / 10, 3 / 10⟩).x ≤ 1 / 4 ∧
    1 / 2 ≤ (PerturbVoronoi.update (exampleParams.pVertices 6).Pt ⟨6 / 10, 3 / 10⟩).z := by
  have h := PerturbVoronoi_update_monotone.2 8 0 0 ⟨6 / 10, 3 / 10⟩ exampleParams _
    examplePerturb 6
  rw [Function.update_same] at h
  exact ⟨examplePerturb, h.1, h.2.2.1⟩

/-- C4: `BuildVoronoiTexture` hands the perturbation pass a vertex array in which every
one of the `N * N` particle rectangles is the inverted
`(+MAX_FLOAT, +MAX_FLOAT, -MAX_FLOAT, -MAX_FLOAT)`, and (for any `MAX_FLOAT` of at least
1) a first sample `(u, v)` of `[0,1) x [0,1)` merged into that rectangle is not unwrapped
and makes the rectangle exactly `(u, v, u, v)`. -/
theorem BuildVoronoiTexture_rects_start_inverted (EFFECT_PARTICLES_COUNT : ℤ) (MAX_FLOAT : ℚ)
    (hM : 1 ≤ MAX_FLOAT) (sqrtf : ℚ → ℚ) (pixelUV : ℤ → ℤ → NjFloat2) (blank : Pixel)
    (N : Noise) (_TB : TextureBuilder) (_pVertices : ℕ → VertexFormatPt4) :
    (∀ ParticleIndex : ℕ,
      (ParticleIndex : ℤ) < EFFECT_PARTICLES_COUNT * EFFECT_PARTICLES_COUNT →
      ((BuildVoronoiTexture.S EFFECT_PARTICLES_COUNT MAX_FLOAT sqrtf pixelUV blank N _TB
          _pVertices).pVertices ParticleIndex).Pt
        = ⟨MAX_FLOAT, MAX_FLOAT, -MAX_FLOAT, -MAX_FLOAT⟩) ∧
    (∀ u v : ℚ, 0 ≤ u → u < 1 → 0 ≤ v → v < 1 →
      PerturbVoronoi.unwrap ⟨MAX_FLOAT, MAX_FLOAT, -MAX_FLOAT, -MAX_FLOAT⟩ ⟨u, v⟩ = ⟨u, v⟩ ∧
      PerturbVoronoi.update ⟨MAX_FLOAT, MAX_FLOAT, -MAX_FLOAT, -MAX_FLOAT⟩ ⟨u, v⟩
        = ⟨u, v, u, v⟩) := by
  refine ⟨fun i hi => ?_, fun u v hu0 hu1 hv0 hv1 => ⟨?_, ?_⟩⟩
  · have hlt : i < (EFFECT_PARTICLES_COUNT * EFFECT_PARTICLES_COUNT).toNat := by omega
    simp [BuildVoronoiTexture.S, clearVertices_apply, hlt, invertedRect]
  · have ex := unwrap_x ⟨MAX_FLOAT, MAX_FLOAT, -MAX_FLOAT, -MAX_FLOAT⟩ ⟨u, v⟩
    have ey := unwrap_y ⟨MAX_FLOAT, MAX_FLOAT, -MAX_FLOAT, -MAX_FLOAT⟩ ⟨u, v⟩
    rw [(axisUnwrap_inverted hM hu0 hu1).1] at ex
    rw [(axisUnwrap_inverted hM hv0 hv1).1] at ey
    cases hres : PerturbVoronoi.unwrap ⟨MAX_FLOAT, MAX_FLOAT, -MAX_FLOAT, -MAX_FLOAT⟩ ⟨u, v⟩
    rw [hres] at ex ey
    simp_all
  · exact update_inverted (s := ⟨u, v⟩) hM hu0 hu1 hv0 hv1

/-- Witness of C4: with `N = 8` the rectangle of particle 63 is inverted before the
perturbation pass, and the first sample `(1/4, 3/4)` turns an inverted rectangle into
`(1/4, 3/4, 1/4, 3/4)`. -/
theorem BuildVoronoiTexture_rects_start_inverted_witness :
    ((BuildVoronoiTexture.S 8 1000 (fun d => d) (fun X Y => ⟨X / 4, Y / 4⟩) ⟨⟨0, 0, 0, 0⟩⟩
        exampleNoise examplePartition (fun _ => ⟨⟨0, 0, 0, 0⟩⟩)).pVertices 63).Pt
      = ⟨1000, 1000, -1000, -1000⟩ ∧
    PerturbVoronoi.update ⟨1000, 1000, -1000, -1000⟩ ⟨1 / 4, 3 / 4⟩
      = ⟨1 / 4, 3 / 4, 1 / 4, 3 / 4⟩ :=
  ⟨(BuildVoronoiTexture_rects_start_inverted 8 1000 (by norm_num) (fun d => d)
      (fun X Y => ⟨X / 4, Y / 4⟩) ⟨⟨0, 0, 0, 0⟩⟩ exampleNoise examplePartition
      (fun _ => ⟨⟨0, 0, 0, 0⟩⟩)).1 63 (by norm_num),
   ((BuildVoronoiTexture_rects_start_inverted 8 1000 (by norm_num) (fun d => d)
      (fun X Y => ⟨X / 4, Y / 4⟩) ⟨⟨0, 0, 0, 0⟩⟩ exampleNoise examplePartition
      (fun _ => ⟨⟨0, 0, 0, 0⟩⟩)).2 (1 / 4) (3 / 4)
      (by norm_num) (by norm_num) (by norm_num) (by norm_num)).2⟩

/-- Counterexample to C5 as stated: the non-empty rectangle `(0.1, 0.1, 0.15, 0.15)` and
the sample `u = 0.5` (more than 0.2 above min-u) merge `0.5`, not `0.5 - 1`; the
non-empty rectangle `(0, 0, 1, 1)` and the sample `u = 0.5` (more than 0.2 below max-u)
merge `0.5`, not `0.5 + 1`. -/
theorem PerturbVoronoi_unwrap_counterexample :
    ((1 / 10 : ℚ) ≤ 15 / 100 ∧ (1 / 2 : ℚ) - 1 / 10 > 2 / 10 ∧
      (PerturbVoronoi.unwrap ⟨1 / 10, 1 / 10, 15 / 100, 15 / 100⟩ ⟨1 / 2, 1 / 10⟩).x = 1 / 2 ∧
      (PerturbVoronoi.unwrap ⟨1 / 10, 1 / 10, 15 / 100, 15 / 100⟩ ⟨1 / 2, 1 / 10⟩).x
        ≠ 1 / 2 - 1) ∧
    ((0 : ℚ) ≤ 1 ∧ (1 : ℚ) - 1 / 2 > 2 / 10 ∧
      (PerturbVoronoi.unwrap ⟨0, 0, 1, 1⟩ ⟨1 / 2, 1 / 2⟩).x = 1 / 2 ∧
      (PerturbVoronoi.unwrap ⟨0, 0, 1, 1⟩ ⟨1 / 2, 1 / 2⟩).x ≠ 1 / 2 + 1) := by
  refine ⟨⟨by norm_num, by norm_num, ?_, ?_⟩, ⟨by norm_num, by norm_num, ?_, ?_⟩⟩ <;>
    rw [unwrap_x] <;> norm_num [axisUnwrap]

/-- C5 (amended): for every rectangle and every sample, on each axis: when the sample
exceeds the current min by more than 0.2 and the current max does not exceed the sample
minus 1.0 by more than 0.2, the value merged is the sample minus 1.0; when the sample
does not exceed the current min by more than 0.2 and the current max exceeds the sample
by more than 0.2, the value merged is the sample plus 1.0; when both tests fire the
sample itself is merged. The merged value is the one the rectangle is extended by. -/
theorem PerturbVoronoi_unwrap_threshold (ParticleVertex : NjFloat4) (NewUV : NjFloat2) :
    ((NewUV.x - ParticleVertex.x > 2 / 10 → ¬ (ParticleVertex.z - (NewUV.x - 1) > 2 / 10) →
        (PerturbVoronoi.unwrap ParticleVertex NewUV).x = NewUV.x - 1) ∧
      (¬ (NewUV.x - ParticleVertex.x > 2 / 10) → ParticleVertex.z - NewUV.x > 2 / 10 →
        (PerturbVoronoi.unwrap ParticleVertex NewUV).x = NewUV.x + 1) ∧
      (NewUV.x - ParticleVertex.x > 2 / 10 → ParticleVertex.z - (NewUV.x - 1) > 2 / 10 →
        (PerturbVoronoi.unwrap ParticleVertex NewUV).x = NewUV.x)) ∧
    ((NewUV.y - ParticleVertex.y > 2 / 10 → ¬ (ParticleVertex.w - (NewUV.y - 1) > 2 / 10) →
        (PerturbVoronoi.unwrap ParticleVertex NewUV).y = NewUV.y - 1) ∧
      (¬ (NewUV.y - ParticleVertex.y > 2 / 10) → ParticleVertex.w - NewUV.y > 2 / 10 →
        (PerturbVoronoi.unwrap ParticleVertex NewUV).y = NewUV.y + 1) ∧
      (NewUV.y - ParticleVertex.y > 2 / 10 → ParticleVertex.w - (NewUV.y - 1) > 2 / 10 →
        (PerturbVoronoi.unwrap ParticleVertex NewUV).y = NewUV.y)) ∧
    (PerturbVoronoi.update ParticleVertex NewUV).x
      = MIN ParticleVertex.x (PerturbVoronoi.unwrap ParticleVertex NewUV).x ∧
    (PerturbVoronoi.update ParticleVertex NewUV).z
      = MAX ParticleVertex.z (PerturbVoronoi.unwrap ParticleVertex NewUV).x ∧
    (PerturbVoronoi.update ParticleVertex NewUV).y
      = MIN ParticleVertex.y (PerturbVoronoi.unwrap ParticleVertex NewUV).y ∧
    (PerturbVoronoi.update ParticleVertex NewUV).w
      = MAX ParticleVertex.w (PerturbVoronoi.unwrap ParticleVertex NewUV).y := by
  rw [unwrap_x, unwrap_y, update_eq]
  obtain ⟨a1, a2, a3, -⟩ := axisUnwrap_cases ParticleVertex.x ParticleVertex.z NewUV.x
  obtain ⟨b1, b2, b3, -⟩ := axisUnwrap_cases ParticleVertex.y ParticleVertex.w NewUV.y
  exact ⟨⟨a1, a2, a3⟩, ⟨b1, b2, b3⟩, rfl, rfl, rfl, rfl⟩

/-- Witness of C5 (amended): the rectangle `[-0.05, 0.02]` and the sample `u = 0.98`
merge `0.98 - 1`; the rectangle `[0.98, 1.05]` and the sample `u = 0.02` merge
`0.02 + 1`; the rectangle `[0.1, 0.15]` and the sample `u = 0.5` merge `0.5`. -/
theorem PerturbVoronoi_unwrap_threshold_witness :
    (PerturbVoronoi.unwrap ⟨-5 / 100, 0, 2 / 100, 0⟩ ⟨98 / 100, 0⟩).x = 98 / 100 - 1 ∧
    (PerturbVoronoi.unwrap ⟨98 / 100, 0, 105 / 100, 0⟩ ⟨2 / 100, 0⟩).x = 2 / 100 + 1 ∧
    (PerturbVoronoi.unwrap ⟨1 / 10, 0, 15 / 100, 0⟩ ⟨1 / 2, 0⟩).x = 1 / 2 :=
  ⟨(PerturbVoronoi_unwrap_threshold ⟨-5 / 100, 0, 2 / 100, 0⟩ ⟨98 / 100, 0⟩).1.1
      (by norm_num) (by norm_num),
   (PerturbVoronoi_unwrap_threshold ⟨98 / 100, 0, 105 / 100, 0⟩ ⟨2 / 100, 0⟩).1.2.1
      (by norm_num) (by norm_num),
   (PerturbVoronoi_unwrap_threshold ⟨1 / 10, 0, 15 / 100, 0⟩ ⟨1 / 2, 0⟩).1.2.2
      (by norm_num) (by norm_num)⟩

/-- C6 (counterexample): on the 6 x 6 `examplePartition6`, at the sample
`u = 13981013 / 16777216` (a `float`, the one nearest to `5 / 6`) and `v = 0`, the exact
product `u * 6` is just below 5, so `floor(u * W) mod W = 4`, but the `float` product of
line 311 rounds up to 5 and the pixel written by `PerturbVoronoi` is the texel `(5, 0)`,
which holds the index 5, not the texel `(4, 0)`, which holds the index 4. -/
theorem PerturbVoronoi_point_sampling_counterexample :
    PerturbVoronoi.NewUV exampleParams6.pNoise ⟨13981013 / 16777216, 0⟩
      = ⟨13981013 / 16777216, 0⟩ ∧
    binary32 (13981013 / 16777216) = 13981013 / 16777216 ∧
    ((0 : ℚ) ≤ 13981013 / 16777216 ∧ (13981013 / 16777216 : ℚ) < 1) ∧
    ⌊(13981013 / 16777216 : ℚ) * (exampleParams6.W : ℚ)⌋ % exampleParams6.W = 4 ∧
    ⌊(0 : ℚ) * (exampleParams6.H : ℚ)⌋ % exampleParams6.H = 0 ∧
    (PerturbVoronoi 8 0 0 ⟨13981013 / 16777216, 0⟩ exampleParams6)._Pixel
      = exampleParams6.pVoronoi.Get 5 0 0 ∧
    (exampleParams6.pVoronoi.Get 5 0 0).RGBA.x = 5 ∧
    (exampleParams6.pVoronoi.Get 4 0 0).RGBA.x = 4 ∧
    (PerturbVoronoi 8 0 0 ⟨13981013 / 16777216, 0⟩ exampleParams6)._Pixel
      ≠ exampleParams6.pVoronoi.Get
          (⌊(13981013 / 16777216 : ℚ) * (exampleParams6.W : ℚ)⌋ % exampleParams6.W)
          (⌊(0 : ℚ) * (exampleParams6.H : ℚ)⌋ % exampleParams6.H) 0 := by
  have hfloat : binary32 (13981013 / 16777216) = 13981013 / 16777216 := by
    refine binary32_exact 13981013 ?_
    rw [ulp32_of_bracket (e := -1) (by norm_num)
      (by rw [abs_of_pos (by norm_num)]; norm_num)
      (by rw [abs_of_pos (by norm_num)]; norm_num)]
    norm_num
  have hfu : ⌊(13981013 / 16777216 : ℚ) * (exampleParams6.W : ℚ)⌋ % exampleParams6.W = 4 := by
    have h : ⌊(13981013 / 16777216 : ℚ) * ((6 : ℤ) : ℚ)⌋ = 4 := by
      rw [Int.floor_eq_iff]; norm_num
    rw [show exampleParams6.W = 6 from rfl, h]
    decide
  have hfv : ⌊(0 : ℚ) * (exampleParams6.H : ℚ)⌋ % exampleParams6.H = 0 := by
    rw [zero_mul, Int.floor_zero]
    rfl
  have htu : PerturbVoronoi.texel 6 (13981013 / 16777216) = 5 := by
    rw [(texel_eq (W := 6) (by decide) (by decide) (by norm_num) (by norm_num)).1]
    have h : binary32 ((13981013 / 16777216 : ℚ) * ((6 : ℤ) : ℚ)) = ((5 : ℤ) : ℚ) := by
      rw [show (((6 : ℤ) : ℚ)) = 6 by norm_num, binary32_example_product]
      norm_num
    rw [h, Int.floor_intCast]
    decide
  have htv : PerturbVoronoi.texel 6 0 = 0 := by
    rw [(texel_eq (W := 6) (by decide) (by decide) (by norm_num) (by norm_num)).1,
      floor_binary32_eq (f := 0) (by norm_num) (by norm_num) (by norm_num) (by norm_num)]
    decide
  have hpx : (PerturbVoronoi 8 0 0 ⟨13981013 / 16777216, 0⟩ exampleParams6)._Pixel
      = exampleParams6.pVoronoi.Get 5 0 0 := by
    rw [PerturbVoronoi_Pixel, NewUV_eq, show exampleParams6.W = 6 from rfl,
      show exampleParams6.H = 6 from rfl, htu, htv]
  have h5 : (exampleParams6.pVoronoi.Get 5 0 0).RGBA.x = 5 := by
    show intToFloat (5 + 6 * 0) = 5
    rw [intToFloat_eq (by decide)]
    norm_num
  have h4 : (exampleParams6.pVoronoi.Get 4 0 0).RGBA.x = 4 := by
    show intToFloat (4 + 6 * 0) = 4
    rw [intToFloat_eq (by decide)]
    norm_num
  refine ⟨NewUV_eq _ _, hfloat, ⟨by norm_num, by norm_num⟩, hfu, hfv, hpx, h5, h4, ?_⟩
  rw [hfu, hfv, hpx]
  intro h
  have h2 := congrArg (fun p : Pixel => p.RGBA.x) h
  simp only [h5, h4] at h2
  norm_num at h2

/-- C6 (amended): pass 2 point-samples the raw partition, with the product of line 311
rounded to `float`: for every sample UV `(u, v)` of `[0,1) x [0,1)` (the UV of line 307,
at which the partition is sampled) and every partition size `0 < W, H <= 2^24`, the pixel
written by `PerturbVoronoi` is one texel of mip 0 of the raw partition, the texel
`(floor(fl(u*W)) mod W, floor(fl(v*H)) mod H)` where `fl` rounds to `float`; both
coordinates lie in `[0, W) x [0, H)`; and `floor(fl(u*W))` is `floor(u*W)` or
`floor(u*W) + 1`, likewise for `v`. -/
theorem PerturbVoronoi_point_sampling (EFFECT_PARTICLES_COUNT x y : ℤ) (_UV : NjFloat2)
    (Params : __PerturbVoronoi)
    (hW : 0 < Params.W ∧ Params.W ≤ 2 ^ 24) (hH : 0 < Params.H ∧ Params.H ≤ 2 ^ 24)
    (hu : 0 ≤ (PerturbVoronoi.NewUV Params.pNoise _UV).x ∧
      (PerturbVoronoi.NewUV Params.pNoise _UV).x < 1)
    (hv : 0 ≤ (PerturbVoronoi.NewUV Params.pNoise _UV).y ∧
      (PerturbVoronoi.NewUV Params.pNoise _UV).y < 1) :
    (PerturbVoronoi EFFECT_PARTICLES_COUNT x y _UV Params)._Pixel
      = Params.pVoronoi.Get
          (⌊binary32 ((PerturbVoronoi.NewUV Params.pNoise _UV).x * (Params.W : ℚ))⌋ % Params.W)
          (⌊binary32 ((PerturbVoronoi.NewUV Params.pNoise _UV).y * (Params.H : ℚ))⌋ % Params.H)
          0 ∧
    (0 ≤ ⌊binary32 ((PerturbVoronoi.NewUV Params.pNoise _UV).x * (Params.W : ℚ))⌋ % Params.W ∧
      ⌊binary32 ((PerturbVoronoi.NewUV Params.pNoise _UV).x * (Params.W : ℚ))⌋ % Params.W
        < Params.W) ∧
    (0 ≤ ⌊binary32 ((PerturbVoronoi.NewUV Params.pNoise _UV).y * (Params.H : ℚ))⌋ % Params.H ∧
      ⌊binary32 ((PerturbVoronoi.NewUV Params.pNoise _UV).y * (Params.H : ℚ))⌋ % Params.H
        < Params.H) ∧
    (⌊(PerturbVoronoi.NewUV Params.pNoise _UV).x * (Params.W : ℚ)⌋
        ≤ ⌊binary32 ((PerturbVoronoi.NewUV Params.pNoise _UV).x * (Params.W : ℚ))⌋ ∧
      ⌊binary32 ((PerturbVoronoi.NewUV Params.pNoise _UV).x * (Params.W : ℚ))⌋
        ≤ ⌊(PerturbVoronoi.NewUV Params.pNoise _UV).x * (Params.W : ℚ)⌋ + 1) ∧
    (⌊(PerturbVoronoi.NewUV Params.pNoise _UV).y * (Params.H : ℚ)⌋
        ≤ ⌊binary32 ((PerturbVoronoi.NewUV Params.pNoise _UV).y * (Params.H : ℚ))⌋ ∧
      ⌊binary32 ((PerturbVoronoi.NewUV Params.pNoise _UV).y * (Params.H : ℚ))⌋
        ≤ ⌊(PerturbVoronoi.NewUV Params.pNoise _UV).y * (Params.H : ℚ)⌋ + 1) := by
  obtain ⟨ex, -, -⟩ := texel_eq hW.1 hW.2 hu.1 hu.2
  obtain ⟨ey, -, -⟩ := texel_eq hH.1 hH.2 hv.1 hv.2
  obtain ⟨px0, px1, -⟩ := product_bounds hW.1 hW.2 hu.1 hu.2
  obtain ⟨py0, py1, -⟩ := product_bounds hH.1 hH.2 hv.1 hv.2
  refine ⟨?_, ⟨Int.emod_nonneg _ (by omega), Int.emod_lt_of_pos _ hW.1⟩,
    ⟨Int.emod_nonneg _ (by omega), Int.emod_lt_of_pos _ hH.1⟩,
    floor_binary32 px0 px1, floor_binary32 py0 py1⟩
  rw [PerturbVoronoi_Pixel, ex, ey]

/-- Witness of C6 (amended): at the sample `(0.6, 0.3)` of the 4 x 4 `examplePartition`
the `float` products have the floors 2 and 1, and the pixel written is the texel `(2, 1)`,
which holds the particle index 6. -/
theorem PerturbVoronoi_point_sampling_witness :
    (PerturbVoronoi.NewUV exampleParams.pNoise ⟨6 / 10, 3 / 10⟩ = ⟨6 / 10, 3 / 10⟩) ∧
    (PerturbVoronoi 8 0 0 ⟨6 / 10, 3 / 10⟩ exampleParams)._Pixel
      = exampleParams.pVoronoi.Get 2 1 0 ∧
    (exampleParams.pVoronoi.Get 2 1 0).RGBA.x = 6 := by
  have hnew : PerturbVoronoi.NewUV exampleParams.pNoise ⟨6 / 10, 3 / 10⟩ = ⟨6 / 10, 3 / 10⟩ :=
    NewUV_eq _ _
  have h := (PerturbVoronoi_point_sampling 8 0 0 ⟨6 / 10, 3 / 10⟩ exampleParams
    ⟨by decide, by decide⟩ ⟨by decide, by decide⟩
    (by rw [hnew]; norm_num) (by rw [hnew]; norm_num)).1
  rw [hnew, show exampleParams.W = 4 from rfl, show exampleParams.H = 4 from rfl,
    example_floor_u, example_floor_v, show (2 : ℤ) % 4 = 2 from rfl,
    show (1 : ℤ) % 4 = 1 from rfl] at h
  refine ⟨hnew, h, ?_⟩
  show intToFloat (2 + 4 * 1) = 6
  rw [intToFloat_eq (by decide)]
  norm_num

/-- C7 (evaluation of the code): the displacement factor of line 307 is `0*0.04f`, so the
UV at which `PerturbVoronoi` samples the raw partition is the pixel's own UV for every
noise object and every pixel: no pixel UV and no noise vector, zero or not, give a
sampled UV that differs from the pixel's UV. The claim of a non-zero displacement fails
on the code. -/
theorem PerturbVoronoi_displacement_is_zero :
    (∀ (pNoise : Noise) (_UV : NjFloat2), PerturbVoronoi.NewUV pNoise _UV = _UV) ∧
    (¬ ∃ (pNoise : Noise) (_UV : NjFloat2),
      pNoise.PerlinVector (NjFloat2.smul (25 / 1000) _UV) ≠ ⟨0, 0⟩ ∧
      PerturbVoronoi.NewUV pNoise _UV ≠ _UV) ∧
    exampleNoise.PerlinVector (NjFloat2.smul (25 / 1000) ⟨1 / 2, 1 / 2⟩) = ⟨1, 1⟩ ∧
    PerturbVoronoi.NewUV exampleNoise ⟨1 / 2, 1 / 2⟩ = ⟨1 / 2, 1 / 2⟩ := by
  refine ⟨NewUV_eq, ?_, rfl, NewUV_eq _ _⟩
  rintro ⟨pNoise, _UV, -, h⟩
  exact h (NewUV_eq pNoise _UV)

/-- C8: after `ClearLightBounce(A)` followed by one `AccumulateLightBounce` call per set
of a finite sequence, each of the 9 bounced-light coefficients equals
`A[i] + sum over the sets of staticBounceSH_set[i] * incomingSH_set[i]` (coefficient-wise
product, floats being exact rationals), and every permutation of the sequence leaves the
probe in the same state. -/
theorem light_bounce_accumulation (p : ProbeStruct) (_pSHAmbient : Fin 9 → NjFloat3)
    (sets : List (Fin MAX_PROBE_SETS × (Fin 9 → NjFloat3))) :
    (∀ i : Fin 9,
      ((p.ClearLightBounce _pSHAmbient).accumulateAll sets).pSHBouncedLight i
        = NjFloat3.add (_pSHAmbient i) (bounceSum p sets i)) ∧
    (∀ permuted : List (Fin MAX_PROBE_SETS × (Fin 9 → NjFloat3)), sets.Perm permuted →
      (p.ClearLightBounce _pSHAmbient).accumulateAll permuted
        = (p.ClearLightBounce _pSHAmbient).accumulateAll sets) := by
  constructor
  · intro i
    rw [accumulateAll_fields]
    rfl
  · intro permuted hperm
    rw [accumulateAll_fields, accumulateAll_fields]
    have : ∀ i, bounceSum (p.ClearLightBounce _pSHAmbient) permuted i
        = bounceSum (p.ClearLightBounce _pSHAmbient) sets i :=
      fun i => (bounceSum_perm _ hperm i).symm
    simp only [this]

/-- Witness of C8: on `exampleProbe`, the ambient SH `(1, 1, 1)` and the incoming SH
`(2, 3, 4)` for set 0 and `(5, 6, 7)` for set 1 give the coefficient
`(1 + 1*2 + 2*5, 1 + 1*3 + 1*6, 1 + 2*4 + 2*7) = (13, 10, 23)`, in both orders. -/
theorem light_bounce_accumulation_witness :
    ((exampleProbe.ClearLightBounce (fun _ => ⟨1, 1, 1⟩)).accumulateAll
        [(0, fun _ => ⟨2, 3, 4⟩), (1, fun _ => ⟨5, 6, 7⟩)]).pSHBouncedLight 0 = ⟨13, 10, 23⟩ ∧
    (exampleProbe.ClearLightBounce (fun _ => ⟨1, 1, 1⟩)).accumulateAll
        [(1, fun _ => ⟨5, 6, 7⟩), (0, fun _ => ⟨2, 3, 4⟩)]
      = (exampleProbe.ClearLightBounce (fun _ => ⟨1, 1, 1⟩)).accumulateAll
        [(0, fun _ => ⟨2, 3, 4⟩), (1, fun _ => ⟨5, 6, 7⟩)] := by
  have h := light_bounce_accumulation exampleProbe (fun _ => ⟨1, 1, 1⟩)
    [(0, fun _ => ⟨2, 3, 4⟩), (1, fun _ => ⟨5, 6, 7⟩)]
  refine ⟨?_, h.2 _ (List.Perm.swap _ _ _)⟩
  rw [h.1 0]
  norm_num [bounceSum, NjFloat3.add, exampleProbe]

/-- C9: `ClearLightBounce(A)` followed by zero `AccumulateLightBounce` calls leaves the
accumulator `pSHBouncedLight` equal to `A` in all 9 coefficients, whatever it held
before, and leaves every other field of the probe as it was. -/
theorem ClearLightBounce_resets (p : ProbeStruct) (_pSHAmbient : Fin 9 → NjFloat3) :
    (∀ i : Fin 9,
      ((p.ClearLightBounce _pSHAmbient).accumulateAll []).pSHBouncedLight i = _pSHAmbient i) ∧
    (p.ClearLightBounce _pSHAmbient).accumulateAll []
      = { pSceneProbe := p.pSceneProbe
          pSHOcclusion := p.pSHOcclusion
          pSHBounceStatic := p.pSHBounceStatic
          MeanDistance := p.MeanDistance
          MeanHarmonicDistance := p.MeanHarmonicDistance
          MinDistance := p.MinDistance
          MaxDistance := p.MaxDistance
          BBoxMin := p.BBoxMin
          BBoxMax := p.BBoxMax
          SetsCount := p.SetsCount
          pSetInfos := p.pSetInfos
          pSHBouncedLight := _pSHAmbient } :=
  ⟨fun _ => rfl, rfl⟩

/-- C10: one `Render` call scrolls the three position buffers by one step
(`new[0] = old[1]`, `new[1] = old[2]`, `new[2] = old[0]`) and swaps the two normal and the
two tangent buffers; hence, when the buffers are pairwise distinct, after `k` consecutive
`Render` calls every slot holds its initial buffer if and only if `6` divides `k`, the
positions alone having period 3 and the normals and the tangents period 2. -/
theorem Render_scroll_period (e : EffectParticles) :
    (∀ _Time _DeltaTime : ℚ,
      (e.Render _Time _DeltaTime).m_ppRTParticlePositions 0 = e.m_ppRTParticlePositions 1 ∧
      (e.Render _Time _DeltaTime).m_ppRTParticlePositions 1 = e.m_ppRTParticlePositions 2 ∧
      (e.Render _Time _DeltaTime).m_ppRTParticlePositions 2 = e.m_ppRTParticlePositions 0 ∧
      (e.Render _Time _DeltaTime).m_ppRTParticleNormals 0 = e.m_ppRTParticleNormals 1 ∧
      (e.Render _Time _DeltaTime).m_ppRTParticleNormals 1 = e.m_ppRTParticleNormals 0 ∧
      (e.Render _Time _DeltaTime).m_ppRTParticleTangents 0 = e.m_ppRTParticleTangents 1 ∧
      (e.Render _Time _DeltaTime).m_ppRTParticleTangents 1 = e.m_ppRTParticleTangents 0) ∧
    (e.m_ppRTParticlePositions 0 ≠ e.m_ppRTParticlePositions 1 ∧
      e.m_ppRTParticlePositions 0 ≠ e.m_ppRTParticlePositions 2 ∧
      e.m_ppRTParticlePositions 1 ≠ e.m_ppRTParticlePositions 2 ∧
      e.m_ppRTParticleNormals 0 ≠ e.m_ppRTParticleNormals 1 ∧
      e.m_ppRTParticleTangents 0 ≠ e.m_ppRTParticleTangents 1 →
      ∀ calls : List (ℚ × ℚ),
        (((e.renderMany calls).m_ppRTParticlePositions = e.m_ppRTParticlePositions ∧
          (e.renderMany calls).m_ppRTParticleNormals = e.m_ppRTParticleNormals ∧
          (e.renderMany calls).m_ppRTParticleTangents = e.m_ppRTParticleTangents)
            ↔ 6 ∣ calls.length) ∧
        ((e.renderMany calls).m_ppRTParticlePositions = e.m_ppRTParticlePositions
            ↔ 3 ∣ calls.length) ∧
        ((e.renderMany calls).m_ppRTParticleNormals = e.m_ppRTParticleNormals
            ↔ 2 ∣ calls.length) ∧
        ((e.renderMany calls).m_ppRTParticleTangents = e.m_ppRTParticleTangents
            ↔ 2 ∣ calls.length)) := by
  constructor
  · intro t dt
    simp [EffectParticles.Render, Function.update]
  · rintro ⟨p01, p02, -, n01, t01⟩ calls
    obtain ⟨hp, hn, ht⟩ := renderMany_slots calls e
    have hpos : (e.renderMany calls).m_ppRTParticlePositions = e.m_ppRTParticlePositions
        ↔ 3 ∣ calls.length := by
      rw [← Fin.natCast_eq_zero]
      constructor
      · intro h
        have h0 := congrFun h 0
        rw [hp 0, zero_add] at h0
        generalize (calls.length : Fin 3) = k at h0
        fin_cases k
        · rfl
        · exact absurd h0.symm p01
        · exact absurd h0.symm p02
      · intro h
        funext i
        rw [hp i, h, add_zero]
    have hnor : (e.renderMany calls).m_ppRTParticleNormals = e.m_ppRTParticleNormals
        ↔ 2 ∣ calls.length := by
      rw [← Fin.natCast_eq_zero]
      constructor
      · intro h
        have h0 := congrFun h 0
        rw [hn 0, zero_add] at h0
        generalize (calls.length : Fin 2) = k at h0
        fin_cases k
        · rfl
        · exact absurd h0.symm n01
      · intro h
        funext i
        rw [hn i, h, add_zero]
    have htan : (e.renderMany calls).m_ppRTParticleTangents = e.m_ppRTParticleTangents
        ↔ 2 ∣ calls.length := by
      rw [← Fin.natCast_eq_zero]
      constructor
      · intro h
        have h0 := congrFun h 0
        rw [ht 0, zero_add] at h0
        generalize (calls.length : Fin 2) = k at h0
        fin_cases k
        · rfl
        · exact absurd h0.symm t01
      · intro h
        funext i
        rw [ht i, h, add_zero]
    refine ⟨?_, hpos, hnor, htan⟩
    rw [hpos, hnor, htan]
    omega

/-- Witness of C10: on `exampleEffect`, whose seven slots hold seven different buffers,
six `Render` calls bring every slot back to its initial buffer and four calls do not. -/
theorem Render_scroll_period_witness :
    ((exampleEffect.renderMany (List.replicate 6 (0, 1 / 60))).m_ppRTParticlePositions
        = exampleEffect.m_ppRTParticlePositions ∧
      (exampleEffect.renderMany (List.replicate 6 (0, 1 / 60))).m_ppRTParticleNormals
        = exampleEffect.m_ppRTParticleNormals ∧
      (exampleEffect.renderMany (List.replicate 6 (0, 1 / 60))).m_ppRTParticleTangents
        = exampleEffect.m_ppRTParticleTangents) ∧
    ¬ ((exampleEffect.renderMany (List.replicate 4 (0, 1 / 60))).m_ppRTParticlePositions
        = exampleEffect.m_ppRTParticlePositions ∧
      (exampleEffect.renderMany (List.replicate 4 (0, 1 / 60))).m_ppRTParticleNormals
        = exampleEffect.m_ppRTParticleNormals ∧
      (exampleEffect.renderMany (List.replicate 4 (0, 1 / 60))).m_ppRTParticleTangents
        = exampleEffect.m_ppRTParticleTangents) :=
  ⟨(((Render_scroll_period exampleEffect).2 (by decide) (List.replicate 6 (0, 1 / 60))).1).mpr
      (by decide),
   fun h => absurd
     ((((Render_scroll_period exampleEffect).2 (by decide) (List.replicate 4 (0, 1 / 60))).1).mp h)
     (by decide)⟩

/-! ## Auxiliary lemmas on the loops, the heap and the index -/

theorem particleIndex_eq {N X Y : ℤ} (hN : N * N < 2 ^ 31)
    (hX : 0 ≤ X ∧ X < N) (hY : 0 ≤ Y ∧ Y < N) :
    particleIndex N X Y = N * Y + X ∧ 0 ≤ N * Y + X ∧ N * Y + X < N * N := by
  have hNpos : 0 < N := by omega
  have h1 : 0 ≤ N * Y := mul_nonneg hNpos.le hY.1
  have h2 : N * Y ≤ N * (N - 1) := mul_le_mul_of_nonneg_left (by omega) hNpos.le
  have h3 : N * (N - 1) = N * N - N := by ring
  refine ⟨?_, by omega, by omega⟩
  unfold particleIndex
  rw [int32_eq_self (x := N * Y) (by omega) (by omega), int32_eq_self (by omega) (by omega)]

theorem particleIndex_toNat {n X Y : ℕ} (hN : (n : ℤ) * n < 2 ^ 31) (hX : X < n) (hY : Y < n) :
    (particleIndex (n : ℤ) (X : ℤ) (Y : ℤ)).toNat = n * Y + X := by
  rw [(particleIndex_eq hN ⟨by omega, by omega⟩ ⟨by omega, by omega⟩).1]
  have : ((n : ℤ) * (Y : ℤ) + (X : ℤ)) = ((n * Y + X : ℕ) : ℤ) := by push_cast; ring
  rw [this, Int.toNat_natCast]

theorem update_piece {α : Type} (k0 k : ℕ) (val : ℕ → α) (C : ℕ → α) :
    Function.update (fun i => if k0 ≤ i ∧ i < k0 + k then val (i - k0) else C i)
        (k0 + k) (val k)
      = fun i => if k0 ≤ i ∧ i < k0 + (k + 1) then val (i - k0) else C i := by
  funext i
  by_cases hik : i = k0 + k
  · subst hik
    have : k0 ≤ k0 + k ∧ k0 + k < k0 + (k + 1) := by omega
    simp [this]
  · rw [Function.update_noteq hik]
    by_cases h : k0 ≤ i ∧ i < k0 + k
    · have h' : k0 ≤ i ∧ i < k0 + (k + 1) := by omega
      rw [if_pos h, if_pos h']
    · have h' : ¬ (k0 ≤ i ∧ i < k0 + (k + 1)) := by omega
      rw [if_neg h, if_neg h']

theorem rows_piece {α : Type} (n k : ℕ) (val : ℕ → ℕ → α) (C : ℕ → α) :
    (fun i => if n * k ≤ i ∧ i < n * k + n then val (i - n * k) k
        else (if i < n * k then val (i % n) (i / n) else C i))
      = fun i => if i < n * (k + 1) then val (i % n) (i / n) else C i := by
  funext i
  by_cases h : n * k ≤ i ∧ i < n * k + n
  · have h' : i < n * (k + 1) := by rw [Nat.mul_succ]; omega
    have hdiv : i / n = k := by
      apply Nat.div_eq_of_lt_le
      · rw [Nat.mul_comm]; exact h.1
      · rw [Nat.succ_mul, Nat.mul_comm]; exact h.2
    have hmod : i % n = i - n * k := by
      have := Nat.div_add_mod i n
      rw [hdiv] at this
      omega
    rw [if_pos h, if_pos h', hdiv, hmod]
  · rw [if_neg h]
    by_cases h2 : i < n * k
    · have h' : i < n * (k + 1) := by rw [Nat.mul_succ]; omega
      rw [if_pos h2, if_pos h']
    · have h' : ¬ i < n * (k + 1) := by rw [Nat.mul_succ]; omega
      rw [if_neg h2, if_neg h']

theorem foldl_update_offset {α : Type} (k0 : ℕ) (val : ℕ → α) (m : ℕ) (C : ℕ → α) :
    (List.range m).foldl (fun C j => Function.update C (k0 + j) (val j)) C
      = fun i => if k0 ≤ i ∧ i < k0 + m then val (i - k0) else C i := by
  induction m with
  | zero =>
    funext i
    have : ¬ (k0 ≤ i ∧ i < k0 + 0) := by omega
    rw [if_neg this]
    rfl
  | succ k ih =>
    rw [List.range_succ, List.foldl_append, List.foldl_cons, List.foldl_nil, ih, update_piece]

theorem foldl_rows {α : Type} (n : ℕ) (val : ℕ → ℕ → α) (m : ℕ) (C : ℕ → α) :
    (List.range m).foldl
        (fun C Y => (List.range n).foldl (fun C X => Function.update C (n * Y + X) (val X Y)) C) C
      = fun i => if i < n * m then val (i % n) (i / n) else C i := by
  induction m with
  | zero => simp
  | succ k ih =>
    rw [List.range_succ, List.foldl_append, List.foldl_cons, List.foldl_nil, ih,
      foldl_update_offset, rows_piece]

theorem cellCenters_apply {N : ℤ} (hpos : 0 < N) (hN : N * N < 2 ^ 31)
    (CellularGetCenter : ℤ → ℤ → Bool → NjFloat2) (C : ℕ → NjFloat2) :
    BuildVoronoiTexture.cellCenters N CellularGetCenter C
      = fun i => if i < N.toNat * N.toNat
          then CellularGetCenter ((i % N.toNat : ℕ) : ℤ) ((i / N.toNat : ℕ) : ℤ) true
          else C i := by
  obtain ⟨n, rfl⟩ := Int.eq_ofNat_of_zero_le hpos.le
  rw [Int.toNat_natCast]
  rw [← foldl_rows n (fun X Y => CellularGetCenter (X : ℤ) (Y : ℤ) true) n C]
  unfold BuildVoronoiTexture.cellCenters
  rw [Int.toNat_natCast]
  apply List.foldl_ext
  intro C1 Y hY
  apply List.foldl_ext
  intro C2 X hX
  rw [particleIndex_toNat hN (List.mem_range.mp hX) (List.mem_range.mp hY)]

theorem initialTextures_row (N : ℤ) (TWOPI : ℚ) (cosf sinf : ℚ → ℚ) (pCellCenters : ℕ → NjFloat2)
    (Y : ℤ) (m : ℕ) (st : InitialTextures) :
    (List.range m).foldl
        (fun st (X : ℕ) =>
          EffectParticles.initialTextures.step N TWOPI cosf sinf pCellCenters st (X : ℤ) Y) st
      = { pInitialPositions := fun i =>
            if st.pScanline ≤ i ∧ i < st.pScanline + m then
              (EffectParticles.initialParticle N TWOPI cosf sinf pCellCenters
                ((i - st.pScanline : ℕ) : ℤ) Y).Position
            else st.pInitialPositions i
          pInitialNormals := fun i =>
            if st.pScanline ≤ i ∧ i < st.pScanline + m then
              (EffectParticles.initialParticle N TWOPI cosf sinf pCellCenters
                ((i - st.pScanline : ℕ) : ℤ) Y).Normal
            else st.pInitialNormals i
          pInitialTangents := fun i =>
            if st.pScanline ≤ i ∧ i < st.pScanline + m then
              (EffectParticles.initialParticle N TWOPI cosf sinf pCellCenters
                ((i - st.pScanline : ℕ) : ℤ) Y).Tangent
            else st.pInitialTangents i
          pScanline := st.pScanline + m } := by
  induction m with
  | zero =>
    cases st
    simp only [List.range_zero, List.foldl_nil, InitialTextures.mk.injEq, add_zero, and_true]
    refine ⟨?_, ?_, ?_⟩ <;> funext i <;> rw [if_neg (by omega)]
  | succ k ih =>
    rw [List.range_succ, List.foldl_append, List.foldl_cons, List.foldl_nil, ih]
    simp only [EffectParticles.initialTextures.step]
    rw [update_piece st.pScanline k
        (fun j => (EffectParticles.initialParticle N TWOPI cosf sinf pCellCenters (j : ℤ) Y).Position),
      update_piece st.pScanline k
        (fun j => (EffectParticles.initialParticle N TWOPI cosf sinf pCellCenters (j : ℤ) Y).Normal),
      update_piece st.pScanline k
        (fun j => (EffectParticles.initialParticle N TWOPI cosf sinf pCellCenters (j : ℤ) Y).Tangent)]
    rfl

theorem initialTextures_rows (N : ℤ) (TWOPI : ℚ) (cosf sinf : ℚ → ℚ) (pCellCenters : ℕ → NjFloat2)
    (n m : ℕ) (P Q T : ℕ → PixelFormatRGBA32F) :
    (List.range m).foldl
        (fun st (Y : ℕ) =>
          (List.range n).foldl
            (fun st (X : ℕ) =>
              EffectParticles.initialTextures.step N TWOPI cosf sinf pCellCenters st
                (X : ℤ) (Y : ℤ)) st)
        { pInitialPositions := P, pInitialNormals := Q, pInitialTangents := T, pScanline := 0 }
      = { pInitialPositions := fun i =>
            if i < n * m then
              (EffectParticles.initialParticle N TWOPI cosf sinf pCellCenters
                ((i % n : ℕ) : ℤ) ((i / n : ℕ) : ℤ)).Position
            else P i
          pInitialNormals := fun i =>
            if i < n * m then
              (EffectParticles.initialParticle N TWOPI cosf sinf pCellCenters
                ((i % n : ℕ) : ℤ) ((i / n : ℕ) : ℤ)).Normal
            else Q i
          pInitialTangents := fun i =>
            if i < n * m then
              (EffectParticles.initialParticle N TWOPI cosf sinf pCellCenters
                ((i % n : ℕ) : ℤ) ((i / n : ℕ) : ℤ)).Tangent
            else T i
          pScanline := n * m } := by
  induction m with
  | zero => simp
  | succ k ih =>
    rw [List.range_succ, List.foldl_append, List.foldl_cons, List.foldl_nil, ih,
      initialTextures_row]
    simp only
    rw [rows_piece n k
        (fun X Y => (EffectParticles.initialParticle N TWOPI cosf sinf pCellCenters
          (X : ℤ) (Y : ℤ)).Position),
      rows_piece n k
        (fun X Y => (EffectParticles.initialParticle N TWOPI cosf sinf pCellCenters
          (X : ℤ) (Y : ℤ)).Normal),
      rows_piece n k
        (fun X Y => (EffectParticles.initialParticle N TWOPI cosf sinf pCellCenters
          (X : ℤ) (Y : ℤ)).Tangent)]
    rfl

theorem rowMajor_decode {n x y : ℕ} (hx : x < n) (hy : y < n) :
    n * y + x < n * n ∧ (n * y + x) % n = x ∧ (n * y + x) / n = y := by
  have hn : 0 < n := by omega
  refine ⟨?_, ?_, ?_⟩
  · have : n * (y + 1) ≤ n * n := Nat.mul_le_mul_left n hy
    rw [Nat.mul_succ] at this
    omega
  · rw [Nat.mul_add_mod, Nat.mod_eq_of_lt hx]
  · rw [Nat.mul_add_div hn, Nat.div_eq_of_lt hx, Nat.add_zero]

theorem initialTextures_apply {N : ℤ} (hN : N * N < 2 ^ 31) (TWOPI : ℚ) (cosf sinf : ℚ → ℚ)
    (pCellCenters : ℕ → NjFloat2) (P Q T : ℕ → PixelFormatRGBA32F) {X Y : ℤ}
    (hX : 0 ≤ X ∧ X < N) (hY : 0 ≤ Y ∧ Y < N) :
    (EffectParticles.initialTextures N TWOPI cosf sinf pCellCenters P Q T).pInitialPositions
        (particleIndex N X Y).toNat
      = (EffectParticles.initialParticle N TWOPI cosf sinf pCellCenters X Y).Position ∧
    (EffectParticles.initialTextures N TWOPI cosf sinf pCellCenters P Q T).pInitialNormals
        (particleIndex N X Y).toNat
      = (EffectParticles.initialParticle N TWOPI cosf sinf pCellCenters X Y).Normal ∧
    (EffectParticles.initialTextures N TWOPI cosf sinf pCellCenters P Q T).pInitialTangents
        (particleIndex N X Y).toNat
      = (EffectParticles.initialParticle N TWOPI cosf sinf pCellCenters X Y).Tangent := by
  obtain ⟨n, rfl⟩ := Int.eq_ofNat_of_zero_le (show 0 ≤ N by omega)
  obtain ⟨x, rfl⟩ := Int.eq_ofNat_of_zero_le hX.1
  obtain ⟨y, rfl⟩ := Int.eq_ofNat_of_zero_le hY.1
  have hx : x < n := by omega
  have hy : y < n := by omega
  obtain ⟨h1, h2, h3⟩ := rowMajor_decode hx hy
  rw [particleIndex_toNat hN hx hy]
  unfold EffectParticles.initialTextures
  rw [Int.toNat_natCast, initialTextures_rows]
  simp only [if_pos h1, h2, h3, and_self]

theorem cellCenters_at {N : ℤ} (hN : N * N < 2 ^ 31)
    (CellularGetCenter : ℤ → ℤ → Bool → NjFloat2) (C : ℕ → NjFloat2) {X Y : ℤ}
    (hX : 0 ≤ X ∧ X < N) (hY : 0 ≤ Y ∧ Y < N) :
    BuildVoronoiTexture.cellCenters N CellularGetCenter C (particleIndex N X Y).toNat
      = CellularGetCenter X Y true := by
  have hpos : 0 < N := by omega
  rw [cellCenters_apply hpos hN]
  obtain ⟨n, rfl⟩ := Int.eq_ofNat_of_zero_le hpos.le
  obtain ⟨x, rfl⟩ := Int.eq_ofNat_of_zero_le hX.1
  obtain ⟨y, rfl⟩ := Int.eq_ofNat_of_zero_le hY.1
  have hx : x < n := by omega
  have hy : y < n := by omega
  obtain ⟨h1, h2, h3⟩ := rowMajor_decode hx hy
  rw [particleIndex_toNat hN hx hy]
  simp only [Int.toNat_natCast, if_pos h1, h2, h3]

theorem initialParticle_eq (N : ℤ) (hpos : 0 < N) (hN : N * N < 2 ^ 31) (TWOPI : ℚ)
    (cosf sinf : ℚ → ℚ) (pCellCenters : ℕ → NjFloat2) (X Y : ℤ) :
    EffectParticles.initialParticle N TWOPI cosf sinf pCellCenters X Y
      = { Position :=
            ⟨1 / 10 * ((pCellCenters (particleIndex N X Y).toNat).x - 5 / 10 * (N : ℚ)), 8 / 10,
             1 / 10 * ((pCellCenters (particleIndex N X Y).toNat).y - 5 / 10 * (N : ℚ)), 0⟩
          Normal := ⟨0, 1, 0, 0⟩
          Tangent := ⟨1, 0, 0, 0⟩ } := by
  have h : intToFloat N = (N : ℚ) := by
    refine intToFloat_eq ?_
    rw [abs_of_pos hpos]
    nlinarith
  simp [EffectParticles.initialParticle, NjFloat3.Set, h]

theorem particleIndex_injective {N X Y X2 Y2 : ℤ} (hN : N * N < 2 ^ 31)
    (hX : 0 ≤ X ∧ X < N) (hY : 0 ≤ Y ∧ Y < N) (hX2 : 0 ≤ X2 ∧ X2 < N) (hY2 : 0 ≤ Y2 ∧ Y2 < N)
    (h : particleIndex N X Y = particleIndex N X2 Y2) : X = X2 ∧ Y = Y2 := by
  rw [(particleIndex_eq hN hX hY).1, (particleIndex_eq hN hX2 hY2).1] at h
  have hmod : ∀ a b : ℤ, 0 ≤ a ∧ a < N → (N * b + a) % N = a := by
    intro a b ha
    rw [Int.add_comm, Int.add_mul_emod_self_left, Int.emod_eq_of_lt ha.1 ha.2]
  have e1 := hmod X Y hX
  have e2 := hmod X2 Y2 hX2
  rw [h, e2] at e1
  subst e1
  have h3 : N * Y = N * Y2 := by omega
  exact ⟨rfl, Int.eq_of_mul_eq_mul_left (by omega) h3⟩

theorem particleIndex_surjective {N i : ℤ} (hpos : 0 < N) (hN : N * N < 2 ^ 31)
    (hi : 0 ≤ i ∧ i < N * N) :
    ∃ X Y : ℤ, (0 ≤ X ∧ X < N) ∧ (0 ≤ Y ∧ Y < N) ∧ particleIndex N X Y = i := by
  have hX : 0 ≤ i % N ∧ i % N < N := ⟨Int.emod_nonneg i (by omega), Int.emod_lt_of_pos i hpos⟩
  have hY : 0 ≤ i / N ∧ i / N < N := ⟨Int.ediv_nonneg hi.1 hpos.le, Int.ediv_lt_of_lt_mul hpos hi.2⟩
  refine ⟨i % N, i / N, hX, hY, ?_⟩
  rw [(particleIndex_eq hN hX hY).1]
  exact Int.ediv_add_emod i N

theorem axisUnwrap_offsets (lo hi c : ℚ) :
    axisUnwrap lo hi c = c - 1 ∨ axisUnwrap lo hi c = c ∨ axisUnwrap lo hi c = c + 1 := by
  unfold axisUnwrap
  dsimp only
  split_ifs
  · right; left; ring
  · left; rfl
  · right; right; rfl
  · right; left; rfl

theorem examplePixel0x2F (_UV : NjFloat2) :
    (PerturbVoronoi 8 0 0 _UV exampleParams0x2F)._Pixel = ⟨⟨((0x2F : ℤ) : ℚ), 0, 0, 0⟩⟩ := by
  rw [PerturbVoronoi_Pixel]
  show (⟨⟨intToFloat 0x2F, 0, 0, 0⟩⟩ : Pixel) = _
  rw [intToFloat_eq (by decide)]

theorem exampleIndex0x2F (_UV : NjFloat2) :
    floatToInt (PerturbVoronoi 8 0 0 _UV exampleParams0x2F)._Pixel.RGBA.x = 0x2F := by
  rw [examplePixel0x2F]
  exact floatToInt_intCast (by norm_num) (by norm_num)

theorem mem_heapDelete (x p : ℕ) (live : List ℕ) :
    x ∈ heapDelete p live ↔ x ∈ live ∧ x ≠ p := by
  simp [heapDelete, List.mem_filter]

theorem createRenderTargets_slots (fresh : List ℕ → ℕ) (live : List ℕ) (e : EffectParticles) :
    ∃ aP aN aT tP tN tT p0 p1 p2 n0 n1 t0 t1 : ℕ,
      aP = fresh live ∧
      aN = fresh (aP :: live) ∧
      aT = fresh (aN :: aP :: live) ∧
      tP = fresh (aT :: aN :: aP :: live) ∧
      tN = fresh (heapDelete aP (tP :: aT :: aN :: aP :: live)) ∧
      tT = fresh (heapDelete aN (tN :: heapDelete aP (tP :: aT :: aN :: aP :: live))) ∧
      p0 = fresh (heapDelete aT (tT ::
        heapDelete aN (tN :: heapDelete aP (tP :: aT :: aN :: aP :: live)))) ∧
      p1 = fresh (p0 :: heapDelete aT (tT ::
        heapDelete aN (tN :: heapDelete aP (tP :: aT :: aN :: aP :: live)))) ∧
      p2 = fresh (p1 :: p0 :: heapDelete aT (tT ::
        heapDelete aN (tN :: heapDelete aP (tP :: aT :: aN :: aP :: live)))) ∧
      n0 = fresh (heapDelete tP (p2 :: p1 :: p0 :: heapDelete aT (tT ::
        heapDelete aN (tN :: heapDelete aP (tP :: aT :: aN :: aP :: live))))) ∧
      n1 = fresh (n0 :: heapDelete tP (p2 :: p1 :: p0 :: heapDelete aT (tT ::
        heapDelete aN (tN :: heapDelete aP (tP :: aT :: aN :: aP :: live))))) ∧
      t0 = fresh (heapDelete tN (n1 :: n0 :: heapDelete tP (p2 :: p1 :: p0 :: heapDelete aT (tT ::
        heapDelete aN (tN :: heapDelete aP (tP :: aT :: aN :: aP :: live)))))) ∧
      t1 = fresh (t0 :: heapDelete tN (n1 :: n0 :: heapDelete tP (p2 :: p1 :: p0 ::
        heapDelete aT (tT ::
          heapDelete aN (tN :: heapDelete aP (tP :: aT :: aN :: aP :: live)))))) ∧
      (EffectParticles.createRenderTargets fresh live e).1.slots = [p0, p1, p2, n0, n1, t0, t1] := by
  refine ⟨_, _, _, _, _, _, _, _, _, _, _, _, _, rfl, rfl, rfl, rfl, rfl, rfl, rfl, rfl, rfl,
    rfl, rfl, rfl, rfl, ?_⟩
  simp [EffectParticles.createRenderTargets, EffectParticles.slots, Function.update]

theorem fresh_chain_nodup (fresh : List ℕ → ℕ) (hfresh : ∀ live, fresh live ∉ live)
    (L6 : List ℕ) (tP tN : ℕ) (hP : tP ∈ L6) (hN : tN ∈ L6) (hPN : tN ≠ tP)
    (p0 p1 p2 n0 n1 t0 t1 : ℕ)
    (e7 : p0 = fresh L6) (e8 : p1 = fresh (p0 :: L6)) (e9 : p2 = fresh (p1 :: p0 :: L6))
    (e10 : n0 = fresh (heapDelete tP (p2 :: p1 :: p0 :: L6)))
    (e11 : n1 = fresh (n0 :: heapDelete tP (p2 :: p1 :: p0 :: L6)))
    (e12 : t0 = fresh (heapDelete tN (n1 :: n0 :: heapDelete tP (p2 :: p1 :: p0 :: L6))))
    (e13 : t1 = fresh (t0 ::
      heapDelete tN (n1 :: n0 :: heapDelete tP (p2 :: p1 :: p0 :: L6)))) :
    [p0, p1, p2, n0, n1, t0, t1].Nodup := by
  have h7 := hfresh L6
  have h8 := hfresh (p0 :: L6)
  have h9 := hfresh (p1 :: p0 :: L6)
  rw [← e7] at h7
  rw [← e8] at h8
  rw [← e9] at h9
  obtain ⟨L9, hL9⟩ : ∃ L, L = heapDelete tP (p2 :: p1 :: p0 :: L6) := ⟨_, rfl⟩
  rw [← hL9] at e10 e11 e12 e13
  have h10 := hfresh L9
  have h11 := hfresh (n0 :: L9)
  rw [← e10] at h10
  rw [← e11] at h11
  obtain ⟨L11, hL11⟩ : ∃ L, L = heapDelete tN (n1 :: n0 :: L9) := ⟨_, rfl⟩
  rw [← hL11] at e12 e13
  have h12 := hfresh L11
  have h13 := hfresh (t0 :: L11)
  rw [← e12] at h12
  rw [← e13] at h13
  clear e7 e8 e9 e10 e11 e12 e13 hfresh
  -- the position buffers differ from the temporaries, which are still alive
  have p0P : p0 ≠ tP := fun h => h7 (h ▸ hP)
  have p1P : p1 ≠ tP := fun h => h8 (List.mem_cons_of_mem _ (h ▸ hP))
  have p2P : p2 ≠ tP := fun h => h9 (List.mem_cons_of_mem _ (List.mem_cons_of_mem _ (h ▸ hP)))
  have p0N : p0 ≠ tN := fun h => h7 (h ▸ hN)
  have p1N : p1 ≠ tN := fun h => h8 (List.mem_cons_of_mem _ (h ▸ hN))
  have p2N : p2 ≠ tN := fun h => h9 (List.mem_cons_of_mem _ (List.mem_cons_of_mem _ (h ▸ hN)))
  -- so they survive `delete pTempPositions`
  have m0 : p0 ∈ L9 := by rw [hL9, mem_heapDelete]; exact ⟨by simp, p0P⟩
  have m1 : p1 ∈ L9 := by rw [hL9, mem_heapDelete]; exact ⟨by simp, p1P⟩
  have m2 : p2 ∈ L9 := by rw [hL9, mem_heapDelete]; exact ⟨by simp, p2P⟩
  have mN : tN ∈ L9 := by
    rw [hL9, mem_heapDelete]
    exact ⟨List.mem_cons_of_mem _ (List.mem_cons_of_mem _ (List.mem_cons_of_mem _ hN)), hPN⟩
  have n0N : n0 ≠ tN := fun h => h10 (h ▸ mN)
  have n1N : n1 ≠ tN := fun h => h11 (List.mem_cons_of_mem _ (h ▸ mN))
  -- and all five survive `delete pTempNormals`
  have k0 : p0 ∈ L11 := by
    rw [hL11, mem_heapDelete]
    exact ⟨List.mem_cons_of_mem _ (List.mem_cons_of_mem _ m0), p0N⟩
  have k1 : p1 ∈ L11 := by
    rw [hL11, mem_heapDelete]
    exact ⟨List.mem_cons_of_mem _ (List.mem_cons_of_mem _ m1), p1N⟩
  have k2 : p2 ∈ L11 := by
    rw [hL11, mem_heapDelete]
    exact ⟨List.mem_cons_of_mem _ (List.mem_cons_of_mem _ m2), p2N⟩
  have k3 : n0 ∈ L11 := by rw [hL11, mem_heapDelete]; exact ⟨by simp, n0N⟩
  have k4 : n1 ∈ L11 := by rw [hL11, mem_heapDelete]; exact ⟨by simp, n1N⟩
  simp only [List.nodup_cons, List.mem_cons, List.mem_singleton, not_or, List.not_mem_nil,
    not_false_eq_true, List.nodup_nil, and_true]
  refine ⟨⟨?_, ?_, ?_, ?_, ?_, ?_⟩, ⟨?_, ?_, ?_, ?_, ?_⟩, ⟨?_, ?_, ?_, ?_⟩, ⟨?_, ?_, ?_⟩,
    ⟨?_, ?_⟩, ?_⟩
  · exact fun h => h8 (h ▸ List.mem_cons_self _ _)
  · exact fun h => h9 (h ▸ List.mem_cons_of_mem _ (List.mem_cons_self _ _))
  · exact fun h => h10 (h ▸ m0)
  · exact fun h => h11 (h ▸ List.mem_cons_of_mem _ m0)
  · exact fun h => h12 (h ▸ k0)
  · exact fun h => h13 (h ▸ List.mem_cons_of_mem _ k0)
  · exact fun h => h9 (h ▸ List.mem_cons_self _ _)
  · exact fun h => h10 (h ▸ m1)
  · exact fun h => h11 (h ▸ List.mem_cons_of_mem _ m1)
  · exact fun h => h12 (h ▸ k1)
  · exact fun h => h13 (h ▸ List.mem_cons_of_mem _ k1)
  · exact fun h => h10 (h ▸ m2)
  · exact fun h => h11 (h ▸ List.mem_cons_of_mem _ m2)
  · exact fun h => h12 (h ▸ k2)
  · exact fun h => h13 (h ▸ List.mem_cons_of_mem _ k2)
  · exact fun h => h11 (h ▸ List.mem_cons_self _ _)
  · exact fun h => h12 (h ▸ k3)
  · exact fun h => h13 (h ▸ List.mem_cons_of_mem _ k3)
  · exact fun h => h12 (h ▸ k4)
  · exact fun h => h13 (h ▸ List.mem_cons_of_mem _ k4)
  · exact fun h => h13 (h ▸ List.mem_cons_self _ _)

theorem createRenderTargets_nodup (fresh : List ℕ → ℕ) (hfresh : ∀ live, fresh live ∉ live)
    (live : List ℕ) (e : EffectParticles) :
    (EffectParticles.createRenderTargets fresh live e).1.slots.Nodup := by
  obtain ⟨aP, aN, aT, tP, tN, tT, p0, p1, p2, n0, n1, t0, t1,
    e1, e2, e3, e4, e5, e6, e7, e8, e9, e10, e11, e12, e13, hs⟩ :=
    createRenderTargets_slots fresh live e
  rw [hs]
  have h2 := hfresh (aP :: live)
  have h3 := hfresh (aN :: aP :: live)
  have h4 := hfresh (aT :: aN :: aP :: live)
  rw [← e2] at h2
  rw [← e3] at h3
  rw [← e4] at h4
  simp only [List.mem_cons, not_or] at h2 h3 h4
  obtain ⟨L4, hL4⟩ : ∃ L, L = heapDelete aP (tP :: aT :: aN :: aP :: live) := ⟨_, rfl⟩
  rw [← hL4] at e5 e6 e7 e8 e9 e10 e11 e12 e13
  have h5 := hfresh L4
  rw [← e5] at h5
  have aN4 : aN ∈ L4 := by rw [hL4, mem_heapDelete]; exact ⟨by simp, h2.1⟩
  have aT4 : aT ∈ L4 := by rw [hL4, mem_heapDelete]; exact ⟨by simp, h3.2.1⟩
  have tP4 : tP ∈ L4 := by rw [hL4, mem_heapDelete]; exact ⟨by simp, h4.2.2.1⟩
  have tNN : tN ≠ aN := fun h => h5 (h ▸ aN4)
  have tNT : tN ≠ aT := fun h => h5 (h ▸ aT4)
  have tNP : tN ≠ tP := fun h => h5 (h ▸ tP4)
  obtain ⟨L5, hL5⟩ : ∃ L, L = heapDelete aN (tN :: L4) := ⟨_, rfl⟩
  rw [← hL5] at e6 e7 e8 e9 e10 e11 e12 e13
  have tP5 : tP ∈ L5 := by
    rw [hL5, mem_heapDelete]; exact ⟨List.mem_cons_of_mem _ tP4, h4.2.1⟩
  have tN5 : tN ∈ L5 := by rw [hL5, mem_heapDelete]; exact ⟨by simp, tNN⟩
  obtain ⟨L6, hL6⟩ : ∃ L, L = heapDelete aT (tT :: L5) := ⟨_, rfl⟩
  rw [← hL6] at e7 e8 e9 e10 e11 e12 e13
  have tP6 : tP ∈ L6 := by
    rw [hL6, mem_heapDelete]; exact ⟨List.mem_cons_of_mem _ tP5, h4.1⟩
  have tN6 : tN ∈ L6 := by
    rw [hL6, mem_heapDelete]; exact ⟨List.mem_cons_of_mem _ tN5, tNT⟩
  exact fresh_chain_nodup fresh hfresh L6 tP tN tP6 tN6 tNP p0 p1 p2 n0 n1 t0 t1
    e7 e8 e9 e10 e11 e12 e13

theorem Render_slots_perm (e : EffectParticles) (_Time _DeltaTime : ℚ) :
    (e.Render _Time _DeltaTime).slots.Perm e.slots := by
  have h : (e.Render _Time _DeltaTime).slots
      = [e.m_ppRTParticlePositions 1, e.m_ppRTParticlePositions 2] ++ [e.m_ppRTParticlePositions 0]
        ++ [e.m_ppRTParticleNormals 1, e.m_ppRTParticleNormals 0,
            e.m_ppRTParticleTangents 1, e.m_ppRTParticleTangents 0] := by
    simp [EffectParticles.Render, EffectParticles.slots, Function.update]
  rw [h]
  exact List.Perm.append List.perm_append_comm
    ((List.Perm.swap _ _ _).trans
      (List.Perm.cons _ (List.Perm.cons _ (List.Perm.swap _ _ _))))

theorem renderMany_slots_nodup (calls : List (ℚ × ℚ)) (e : EffectParticles)
    (h : e.slots.Nodup) : (e.renderMany calls).slots.Nodup := by
  induction calls generalizing e with
  | nil => exact h
  | cons c rest ih =>
    have hstep : e.renderMany (c :: rest) = (e.Render c.1 c.2).renderMany rest := rfl
    rw [hstep]
    exact ih _ ((Render_slots_perm e c.1 c.2).nodup_iff.mpr h)

theorem exampleFresh_not_mem (live : List ℕ) : exampleFresh live ∉ live := by
  have hle : ∀ l : List ℕ, ∀ x ∈ l, x ≤ l.sum := by
    intro l
    induction l with
    | nil => intro x hx; cases hx
    | cons a t ih =>
      intro x hx
      rw [List.sum_cons]
      rcases List.mem_cons.mp hx with h | h
      · omega
      · have := ih x h
        omega
  intro hmem
  have := hle live _ hmem
  unfold exampleFresh at this
  omega

/-! ## The claims on the constructor, the frame of the bake and the render targets -/

/-- C11 (evaluation of the code): the block of lines 92-99, marked DEBUG, overwrites the
torus position, normal and tangent computed by lines 78-89, so for every particle
`(X, Y)` the constructor stores the position
`(0.1 * (CellCenter.x - 0.5 * N), 0.8, 0.1 * (CellCenter.y - 0.5 * N))` on the plane
`y = 0.8`, the normal `(0, 1, 0)` and the tangent `(1, 0, 0)`, whatever `cosf`, `sinf` and
`TWOPI` are; the stored position is at squared distance at least `0.09` from every point
of the plane `y = 0.5` that holds the great circle, hence never at distance `0.2` from
the circle. The claim of a torus fails on the code. -/
theorem initial_particles_on_debug_plane (EFFECT_PARTICLES_COUNT : ℤ)
    (hN : EFFECT_PARTICLES_COUNT * EFFECT_PARTICLES_COUNT < 2 ^ 31)
    (TWOPI : ℚ) (cosf sinf : ℚ → ℚ) (pCellCenters : ℕ → NjFloat2)
    (pInitialPositions pInitialNormals pInitialTangents : ℕ → PixelFormatRGBA32F) (X Y : ℤ)
    (hX : 0 ≤ X ∧ X < EFFECT_PARTICLES_COUNT) (hY : 0 ≤ Y ∧ Y < EFFECT_PARTICLES_COUNT) :
    (EffectParticles.initialTextures EFFECT_PARTICLES_COUNT TWOPI cosf sinf pCellCenters
        pInitialPositions pInitialNormals pInitialTangents).pInitialPositions
        (particleIndex EFFECT_PARTICLES_COUNT X Y).toNat
      = ⟨1 / 10 * ((pCellCenters (particleIndex EFFECT_PARTICLES_COUNT X Y).toNat).x
            - 5 / 10 * (EFFECT_PARTICLES_COUNT : ℚ)),
         8 / 10,
         1 / 10 * ((pCellCenters (particleIndex EFFECT_PARTICLES_COUNT X Y).toNat).y
            - 5 / 10 * (EFFECT_PARTICLES_COUNT : ℚ)),
         0⟩ ∧
    (EffectParticles.initialTextures EFFECT_PARTICLES_COUNT TWOPI cosf sinf pCellCenters
        pInitialPositions pInitialNormals pInitialTangents).pInitialNormals
        (particleIndex EFFECT_PARTICLES_COUNT X Y).toNat = ⟨0, 1, 0, 0⟩ ∧
    (EffectParticles.initialTextures EFFECT_PARTICLES_COUNT TWOPI cosf sinf pCellCenters
        pInitialPositions pInitialNormals pInitialTangents).pInitialTangents
        (particleIndex EFFECT_PARTICLES_COUNT X Y).toNat = ⟨1, 0, 0, 0⟩ ∧
    (∀ c : NjFloat3, c.y = 5 / 10 →
      (2 / 10 : ℚ) ^ 2 < 9 / 100 ∧
      9 / 100 ≤
        (((EffectParticles.initialTextures EFFECT_PARTICLES_COUNT TWOPI cosf sinf pCellCenters
            pInitialPositions pInitialNormals pInitialTangents).pInitialPositions
            (particleIndex EFFECT_PARTICLES_COUNT X Y).toNat).R - c.x) ^ 2
        + (((EffectParticles.initialTextures EFFECT_PARTICLES_COUNT TWOPI cosf sinf pCellCenters
            pInitialPositions pInitialNormals pInitialTangents).pInitialPositions
            (particleIndex EFFECT_PARTICLES_COUNT X Y).toNat).G - c.y) ^ 2
        + (((EffectParticles.initialTextures EFFECT_PARTICLES_COUNT TWOPI cosf sinf pCellCenters
            pInitialPositions pInitialNormals pInitialTangents).pInitialPositions
            (particleIndex EFFECT_PARTICLES_COUNT X Y).toNat).B - c.z) ^ 2) := by
  obtain ⟨hp, hn, ht⟩ := initialTextures_apply hN TWOPI cosf sinf pCellCenters
    pInitialPositions pInitialNormals pInitialTangents hX hY
  rw [hp, hn, ht, initialParticle_eq _ (by omega) hN]
  refine ⟨rfl, rfl, rfl, ?_⟩
  intro c hc
  refine ⟨by norm_num, ?_⟩
  simp only [hc]
  nlinarith [sq_nonneg (1 / 10 * ((pCellCenters (particleIndex EFFECT_PARTICLES_COUNT X Y).toNat).x
      - 5 / 10 * (EFFECT_PARTICLES_COUNT : ℚ)) - c.x),
    sq_nonneg (1 / 10 * ((pCellCenters (particleIndex EFFECT_PARTICLES_COUNT X Y).toNat).y
      - 5 / 10 * (EFFECT_PARTICLES_COUNT : ℚ)) - c.z)]

/-- Witness of C11: with `N = 8` and every cell centre at `(4, 4)`, the particle `(0, 0)`
is stored at `(0, 0.8, 0)` with the normal `(0, 1, 0)`. -/
theorem initial_particles_on_debug_plane_witness :
    (EffectParticles.initialTextures 8 (6283 / 1000) (fun _ => 0) (fun _ => 0)
        (fun _ => ⟨4, 4⟩) (fun _ => ⟨0, 0, 0, 0⟩) (fun _ => ⟨0, 0, 0, 0⟩)
        (fun _ => ⟨0, 0, 0, 0⟩)).pInitialPositions (particleIndex 8 0 0).toNat
      = ⟨0, 8 / 10, 0, 0⟩ ∧
    (EffectParticles.initialTextures 8 (6283 / 1000) (fun _ => 0) (fun _ => 0)
        (fun _ => ⟨4, 4⟩) (fun _ => ⟨0, 0, 0, 0⟩) (fun _ => ⟨0, 0, 0, 0⟩)
        (fun _ => ⟨0, 0, 0, 0⟩)).pInitialNormals (particleIndex 8 0 0).toNat
      = ⟨0, 1, 0, 0⟩ := by
  have h := initial_particles_on_debug_plane 8 (by norm_num) (6283 / 1000) (fun _ => 0)
    (fun _ => 0) (fun _ => ⟨4, 4⟩) (fun _ => ⟨0, 0, 0, 0⟩) (fun _ => ⟨0, 0, 0, 0⟩)
    (fun _ => ⟨0, 0, 0, 0⟩) 0 0 (by norm_num) (by norm_num)
  refine ⟨?_, h.2.1⟩
  rw [h.1]
  norm_num

/-- C12: in every `PerturbVoronoi` update the value merged on an axis depends only on
that axis (the sample's coordinate and the rectangle's min and max on it) and differs
from the sample's coordinate by exactly -1, 0 or +1, so it is the sample's coordinate
plus an integer. -/
theorem PerturbVoronoi_unwrap_offsets (ParticleVertex : NjFloat4) (NewUV : NjFloat2) :
    ((PerturbVoronoi.unwrap ParticleVertex NewUV).x
        = axisUnwrap ParticleVertex.x ParticleVertex.z NewUV.x ∧
      (PerturbVoronoi.unwrap ParticleVertex NewUV).y
        = axisUnwrap ParticleVertex.y ParticleVertex.w NewUV.y) ∧
    ((PerturbVoronoi.unwrap ParticleVertex NewUV).x - NewUV.x = -1 ∨
      (PerturbVoronoi.unwrap ParticleVertex NewUV).x - NewUV.x = 0 ∨
      (PerturbVoronoi.unwrap ParticleVertex NewUV).x - NewUV.x = 1) ∧
    ((PerturbVoronoi.unwrap ParticleVertex NewUV).y - NewUV.y = -1 ∨
      (PerturbVoronoi.unwrap ParticleVertex NewUV).y - NewUV.y = 0 ∨
      (PerturbVoronoi.unwrap ParticleVertex NewUV).y - NewUV.y = 1) ∧
    (∃ k : ℤ, (PerturbVoronoi.unwrap ParticleVertex NewUV).x = NewUV.x + (k : ℚ)) ∧
    (∃ k : ℤ, (PerturbVoronoi.unwrap ParticleVertex NewUV).y = NewUV.y + (k : ℚ)) ∧
    (PerturbVoronoi.update ParticleVertex NewUV
      = ⟨MIN ParticleVertex.x (PerturbVoronoi.unwrap ParticleVertex NewUV).x,
         MIN ParticleVertex.y (PerturbVoronoi.unwrap ParticleVertex NewUV).y,
         MAX ParticleVertex.z (PerturbVoronoi.unwrap ParticleVertex NewUV).x,
         MAX ParticleVertex.w (PerturbVoronoi.unwrap ParticleVertex NewUV).y⟩) := by
  have hx := axisUnwrap_offsets ParticleVertex.x ParticleVertex.z NewUV.x
  have hy := axisUnwrap_offsets ParticleVertex.y ParticleVertex.w NewUV.y
  rw [update_eq, unwrap_x, unwrap_y]
  refine ⟨⟨rfl, rfl⟩, ?_, ?_, ?_, ?_, rfl⟩
  · rcases hx with h | h | h <;> rw [h]
    · left; ring
    · right; left; ring
    · right; right; ring
  · rcases hy with h | h | h <;> rw [h]
    · left; ring
    · right; left; ring
    · right; right; ring
  · rcases hx with h | h | h <;> rw [h]
    · exact ⟨-1, by push_cast; ring⟩
    · exact ⟨0, by push_cast; ring⟩
    · exact ⟨1, by push_cast; ring⟩
  · rcases hy with h | h | h <;> rw [h]
    · exact ⟨-1, by push_cast; ring⟩
    · exact ⟨0, by push_cast; ring⟩
    · exact ⟨1, by push_cast; ring⟩

/-- C13: a call of `PerturbVoronoi` whose fetched pixel holds an index `k` of
`[0, N * N)` returns a vertex array in which the rectangle of particle `k` is the updated
one and the rectangle of every other particle is unchanged (when `k` is out of range the
`ASSERT` fails and no array is returned); this is so also when `k = 0x2F` and the
sample's `u` is below `0.4`: the local index then becomes `0x30`, but the rectangle
written is still that of particle `0x2F` and the rectangle of particle `0x30` is
unchanged. -/
theorem PerturbVoronoi_frame (EFFECT_PARTICLES_COUNT x y : ℤ) (_UV : NjFloat2)
    (Params : __PerturbVoronoi) :
    (0 ≤ floatToInt (PerturbVoronoi EFFECT_PARTICLES_COUNT x y _UV Params)._Pixel.RGBA.x ∧
      floatToInt (PerturbVoronoi EFFECT_PARTICLES_COUNT x y _UV Params)._Pixel.RGBA.x
        < EFFECT_PARTICLES_COUNT * EFFECT_PARTICLES_COUNT →
      ∃ after : ℕ → VertexFormatPt4,
        (PerturbVoronoi EFFECT_PARTICLES_COUNT x y _UV Params).pVertices = some after ∧
        (∀ ParticleIndex : ℕ,
          ParticleIndex ≠
            (floatToInt (PerturbVoronoi EFFECT_PARTICLES_COUNT x y _UV Params)._Pixel.RGBA.x).toNat →
          after ParticleIndex = Params.pVertices ParticleIndex) ∧
        (after
          (floatToInt (PerturbVoronoi EFFECT_PARTICLES_COUNT x y _UV Params)._Pixel.RGBA.x).toNat).Pt
          = PerturbVoronoi.update
              (Params.pVertices
                (floatToInt
                  (PerturbVoronoi EFFECT_PARTICLES_COUNT x y _UV Params)._Pixel.RGBA.x).toNat).Pt
              (PerturbVoronoi.NewUV Params.pNoise _UV) ∧
        (floatToInt (PerturbVoronoi EFFECT_PARTICLES_COUNT x y _UV Params)._Pixel.RGBA.x = 0x2F →
          (PerturbVoronoi.NewUV Params.pNoise _UV).x < 4 / 10 →
          PerturbVoronoi.adjustIndex 0x2F (PerturbVoronoi.NewUV Params.pNoise _UV) = 0x30 ∧
          after 0x30 = Params.pVertices 0x30 ∧
          (after 0x2F).Pt = PerturbVoronoi.update (Params.pVertices 0x2F).Pt
            (PerturbVoronoi.NewUV Params.pNoise _UV))) ∧
    (¬ (0 ≤ floatToInt (PerturbVoronoi EFFECT_PARTICLES_COUNT x y _UV Params)._Pixel.RGBA.x ∧
      floatToInt (PerturbVoronoi EFFECT_PARTICLES_COUNT x y _UV Params)._Pixel.RGBA.x
        < EFFECT_PARTICLES_COUNT * EFFECT_PARTICLES_COUNT) →
      (PerturbVoronoi EFFECT_PARTICLES_COUNT x y _UV Params).pVertices = none) := by
  constructor
  · intro hidx
    refine ⟨_, by rw [PerturbVoronoi_pVertices, if_pos hidx], ?_, ?_, ?_⟩
    · intro i hi
      exact Function.update_noteq hi _ _
    · rw [Function.update_same]
    · intro hk hu
      rw [hk]
      refine ⟨?_, ?_, ?_⟩
      · unfold PerturbVoronoi.adjustIndex
        rw [if_pos ⟨rfl, hu⟩]
        decide
      · exact Function.update_noteq (by decide) _ _
      · exact congrArg VertexFormatPt4.Pt (Function.update_same _ _ _)
  · intro hidx
    rw [PerturbVoronoi_pVertices, if_neg hidx]

/-- Witness of C13: on `exampleParams0x2F` (every texel holds `0x2F`, the rectangle of
particle `k` is `(k, k, k, k)`) the sample `(0.3, 0.5)` has `u < 0.4`; the call returns an
array in which particle `0x30` still has the rectangle `(48, 48, 48, 48)`. -/
theorem PerturbVoronoi_frame_witness :
    ∃ after : ℕ → VertexFormatPt4,
      (PerturbVoronoi 8 0 0 ⟨3 / 10, 1 / 2⟩ exampleParams0x2F).pVertices = some after ∧
      after 0x30 = ⟨⟨48, 48, 48, 48⟩⟩ ∧
      (after 0x2F).Pt = PerturbVoronoi.update ⟨47, 47, 47, 47⟩ ⟨3 / 10, 1 / 2⟩ := by
  obtain ⟨after, h1, -, -, h4⟩ := (PerturbVoronoi_frame 8 0 0 ⟨3 / 10, 1 / 2⟩
    exampleParams0x2F).1 (by rw [exampleIndex0x2F]; decide)
  obtain ⟨-, h5, h6⟩ := h4 (exampleIndex0x2F _) (by rw [NewUV_eq]; norm_num)
  refine ⟨after, h1, ?_, ?_⟩
  · rw [h5]
    simp [exampleParams0x2F]
  · rw [h6, NewUV_eq]
    simp [exampleParams0x2F]

/-- C14: when `new` never returns the address of a live object, in every state reached
from the constructor by any number of `Render` calls the seven render-target slots hold
seven different buffers (so the three position buffers are pairwise distinct, the two
normal buffers are distinct and the two tangent buffers are distinct); hence no render
target of the compute pass (positions[2], normals[1], tangents[1]) is among the buffers
that pass reads (positions[0], positions[1], normals[0], tangents[0]); and the buffers the
display pass reads (positions[1], normals[0], tangents[0] after the scroll) are the render
targets of the compute pass of the same `Render` call. -/
theorem Render_targets_never_read (fresh : List ℕ → ℕ)
    (hfresh : ∀ live : List ℕ, fresh live ∉ live) (live : List ℕ) (e0 : EffectParticles)
    (calls : List (ℚ × ℚ)) (e : EffectParticles)
    (he : e = (EffectParticles.createRenderTargets fresh live e0).1.renderMany calls) :
    e.slots.Nodup ∧
    (e.m_ppRTParticlePositions 0 ≠ e.m_ppRTParticlePositions 1 ∧
      e.m_ppRTParticlePositions 0 ≠ e.m_ppRTParticlePositions 2 ∧
      e.m_ppRTParticlePositions 1 ≠ e.m_ppRTParticlePositions 2 ∧
      e.m_ppRTParticleNormals 0 ≠ e.m_ppRTParticleNormals 1 ∧
      e.m_ppRTParticleTangents 0 ≠ e.m_ppRTParticleTangents 1) ∧
    (∀ target ∈ EffectParticles.Render.ppRenderTargets e,
      target ∉ EffectParticles.Render.computeInputs e) ∧
    (∀ _Time _DeltaTime : ℚ,
      EffectParticles.Render.displayInputs e _Time _DeltaTime
        = EffectParticles.Render.ppRenderTargets e) := by
  have hnd : e.slots.Nodup := by
    rw [he]
    exact renderMany_slots_nodup calls _ (createRenderTargets_nodup fresh hfresh live e0)
  refine ⟨hnd, ?_, ?_, ?_⟩
  · simp only [EffectParticles.slots, List.nodup_cons, List.mem_cons, List.mem_singleton,
      not_or, List.not_mem_nil, not_false_eq_true, List.nodup_nil, and_true] at hnd
    obtain ⟨⟨a1, a2, -⟩, ⟨b1, -⟩, -, ⟨c1, -⟩, -, d1⟩ := hnd
    exact ⟨a1, a2, b1, c1, d1⟩
  · simp only [EffectParticles.slots, List.nodup_cons, List.mem_cons, List.mem_singleton,
      not_or, List.not_mem_nil, not_false_eq_true, List.nodup_nil, and_true] at hnd
    obtain ⟨⟨a1, a2, a3, a4, a5, a6⟩, ⟨b1, b2, b3, b4, b5⟩, ⟨c1, c2, c3, c4⟩, ⟨d1, d2, d3⟩,
      ⟨f1, f2⟩, g1⟩ := hnd
    intro target ht
    simp only [EffectParticles.Render.ppRenderTargets, List.mem_cons, List.mem_singleton,
      List.not_mem_nil, or_false] at ht
    simp only [EffectParticles.Render.computeInputs, List.mem_cons, List.mem_singleton,
      List.not_mem_nil, or_false, not_or]
    rcases ht with rfl | rfl | rfl
    · exact ⟨Ne.symm a2, Ne.symm b1, c1, c3⟩
    · exact ⟨Ne.symm a4, Ne.symm b3, Ne.symm d1, f1⟩
    · exact ⟨Ne.symm a6, Ne.symm b5, Ne.symm d3, Ne.symm g1⟩
  · intro t dt
    simp [EffectParticles.Render.displayInputs, EffectParticles.Render.ppRenderTargets,
      EffectParticles.Render, Function.update]

/-- Witness of C14: with the allocator `exampleFresh`, an empty heap on entry and two
`Render` calls, the seven slots hold seven different buffers and the render target
positions[2] of the next compute pass is not the positions[0] it reads. -/
theorem Render_targets_never_read_witness :
    ((EffectParticles.createRenderTargets exampleFresh [] exampleEffect).1.renderMany
        [(0, 1 / 60), (1 / 60, 1 / 60)]).slots.Nodup ∧
    ((EffectParticles.createRenderTargets exampleFresh [] exampleEffect).1.renderMany
        [(0, 1 / 60), (1 / 60, 1 / 60)]).m_ppRTParticlePositions 0
      ≠ ((EffectParticles.createRenderTargets exampleFresh [] exampleEffect).1.renderMany
        [(0, 1 / 60), (1 / 60, 1 / 60)]).m_ppRTParticlePositions 2 :=
  ⟨(Render_targets_never_read exampleFresh exampleFresh_not_mem [] exampleEffect
      [(0, 1 / 60), (1 / 60, 1 / 60)] _ rfl).1,
   (Render_targets_never_read exampleFresh exampleFresh_not_mem [] exampleEffect
      [(0, 1 / 60), (1 / 60, 1 / 60)] _ rfl).2.1.2.1⟩

/-- C15: for `N = EFFECT_PARTICLES_COUNT` with `0 < N` and `N * N` an `int`, the row-major
index `N * Y + X` maps `[0, N) x [0, N)` one-to-one onto `[0, N * N)`; it is the index that
`CombineDistances` writes for the nearest cell `(X, Y)`, the index under which
`BuildVoronoiTexture` stores the centre of the cell `(X, Y)`, and the index under which
the constructor reads the centre for the particle `(X, Y)`, whose position it stores at
the same index. -/
theorem particleIndex_consistent (EFFECT_PARTICLES_COUNT : ℤ) (hpos : 0 < EFFECT_PARTICLES_COUNT)
    (hN : EFFECT_PARTICLES_COUNT * EFFECT_PARTICLES_COUNT < 2 ^ 31) :
    (∀ X Y : ℤ, 0 ≤ X ∧ X < EFFECT_PARTICLES_COUNT → 0 ≤ Y ∧ Y < EFFECT_PARTICLES_COUNT →
      particleIndex EFFECT_PARTICLES_COUNT X Y = EFFECT_PARTICLES_COUNT * Y + X ∧
      0 ≤ particleIndex EFFECT_PARTICLES_COUNT X Y ∧
      particleIndex EFFECT_PARTICLES_COUNT X Y
        < EFFECT_PARTICLES_COUNT * EFFECT_PARTICLES_COUNT) ∧
    (∀ X Y X2 Y2 : ℤ,
      0 ≤ X ∧ X < EFFECT_PARTICLES_COUNT → 0 ≤ Y ∧ Y < EFFECT_PARTICLES_COUNT →
      0 ≤ X2 ∧ X2 < EFFECT_PARTICLES_COUNT → 0 ≤ Y2 ∧ Y2 < EFFECT_PARTICLES_COUNT →
      particleIndex EFFECT_PARTICLES_COUNT X Y = particleIndex EFFECT_PARTICLES_COUNT X2 Y2 →
      X = X2 ∧ Y = Y2) ∧
    (∀ i : ℤ, 0 ≤ i ∧ i < EFFECT_PARTICLES_COUNT * EFFECT_PARTICLES_COUNT →
      ∃ X Y : ℤ, (0 ≤ X ∧ X < EFFECT_PARTICLES_COUNT) ∧ (0 ≤ Y ∧ Y < EFFECT_PARTICLES_COUNT) ∧
        particleIndex EFFECT_PARTICLES_COUNT X Y = i) ∧
    (∀ (sqrtf : ℚ → ℚ) (_pDistances : ℕ → ℚ) (_pCellX _pCellY _pCellZ : ℕ → ℤ),
      (CombineDistances EFFECT_PARTICLES_COUNT sqrtf _pDistances _pCellX _pCellY
          _pCellZ).2.ParticleIndex
        = particleIndex EFFECT_PARTICLES_COUNT (_pCellX 0) (_pCellY 0)) ∧
    (∀ (CellularGetCenter : ℤ → ℤ → Bool → NjFloat2) (_pCellCenters : ℕ → NjFloat2) (X Y : ℤ),
      0 ≤ X ∧ X < EFFECT_PARTICLES_COUNT → 0 ≤ Y ∧ Y < EFFECT_PARTICLES_COUNT →
      BuildVoronoiTexture.cellCenters EFFECT_PARTICLES_COUNT CellularGetCenter _pCellCenters
          (particleIndex EFFECT_PARTICLES_COUNT X Y).toNat
        = CellularGetCenter X Y true) ∧
    (∀ (TWOPI : ℚ) (cosf sinf : ℚ → ℚ) (pCellCenters : ℕ → NjFloat2)
        (pInitialPositions pInitialNormals pInitialTangents : ℕ → PixelFormatRGBA32F)
        (X Y : ℤ),
      0 ≤ X ∧ X < EFFECT_PARTICLES_COUNT → 0 ≤ Y ∧ Y < EFFECT_PARTICLES_COUNT →
      (EffectParticles.initialTextures EFFECT_PARTICLES_COUNT TWOPI cosf sinf pCellCenters
          pInitialPositions pInitialNormals pInitialTangents).pInitialPositions
          (particleIndex EFFECT_PARTICLES_COUNT X Y).toNat
        = (EffectParticles.initialParticle EFFECT_PARTICLES_COUNT TWOPI cosf sinf pCellCenters
            X Y).Position ∧
      (EffectParticles.initialParticle EFFECT_PARTICLES_COUNT TWOPI cosf sinf pCellCenters
          X Y).Position
        = ⟨1 / 10 * ((pCellCenters (particleIndex EFFECT_PARTICLES_COUNT X Y).toNat).x
              - 5 / 10 * (EFFECT_PARTICLES_COUNT : ℚ)),
           8 / 10,
           1 / 10 * ((pCellCenters (particleIndex EFFECT_PARTICLES_COUNT X Y).toNat).y
              - 5 / 10 * (EFFECT_PARTICLES_COUNT : ℚ)),
           0⟩) := by
  refine ⟨fun X Y hX hY => by
      obtain ⟨e, lo, hi⟩ := particleIndex_eq hN hX hY
      rw [e]
      exact ⟨rfl, lo, hi⟩,
    fun X Y X2 Y2 hX hY hX2 hY2 h => particleIndex_injective hN hX hY hX2 hY2 h,
    fun i hi => particleIndex_surjective hpos hN hi,
    fun _ _ _ _ _ => rfl,
    fun G C X Y hX hY => cellCenters_at hN G C hX hY, ?_⟩
  intro TWOPI cosf sinf pCC P Q T X Y hX hY
  refine ⟨(initialTextures_apply hN TWOPI cosf sinf pCC P Q T hX hY).1, ?_⟩
  rw [initialParticle_eq _ hpos hN]

/-- Witness of C15: with `N = 8` the cell `(3, 5)` has the index `8 * 5 + 3 = 43`, under
which its centre is stored. -/
theorem particleIndex_consistent_witness :
    particleIndex 8 3 5 = 43 ∧
    BuildVoronoiTexture.cellCenters 8 (fun X Y _ => ⟨(X : ℚ) / 8, (Y : ℚ) / 8⟩)
        (fun _ => ⟨0, 0⟩) 43 = ⟨3 / 8, 5 / 8⟩ := by
  have h := particleIndex_consistent 8 (by norm_num) (by norm_num)
  have h43 : particleIndex 8 3 5 = 43 := by
    rw [(h.1 3 5 (by norm_num) (by norm_num)).1]
    norm_num
  refine ⟨h43, ?_⟩
  have hc := h.2.2.2.2.1 (fun X Y _ => ⟨(X : ℚ) / 8, (Y : ℚ) / 8⟩) (fun _ => ⟨0, 0⟩) 3 5
    (by norm_num) (by norm_num)
  rw [h43] at hc
  rw [show (43 : ℕ) = (43 : ℤ).toNat from rfl, hc]
  norm_num

end GodComplex
